import Mathlib

/-!
# Risk Scoring & Scenario Correlation Engine — verification development

Shallow embedding of the risk scoring core of the cyber-risk platform:
the deterministic multi-factor scorer (`engines/risk_engine.py`), its data
model (`backend/models/risk_models.py`), and the ensemble confidence layer
(`engines/ultra_precise_risk_engine.py`).

Python floats are modelled as exact rationals (`ℚ`) in the deterministic
engine; the ensemble layer uses real numbers (`ℝ`) because it takes square
roots (`np.std`).  Python dicts keyed by id are modelled as association
lists; dict insertion order is the list order.
-/

namespace CyberRisk

/-- `RiskLevel` enum from `risk_models.py`. -/
inductive RiskLevel
  | critical
  | high
  | medium
  | low
  | informational
deriving DecidableEq, Repr

/-- `AssetCriticality` enum from `risk_models.py`. -/
inductive AssetCriticality
  | missionCritical
  | high
  | medium
  | low
deriving DecidableEq, Repr

/-- `Vulnerability` dataclass (the fields read by the two engines).
`publishedAgeDays` models `(datetime.now() - published_date).days` as an
abstract age, `none` meaning no published date; `activelyExploited` is the
attribute the ensemble engine reads on its duck-typed vulnerability input. -/
structure Vulnerability where
  id : String
  cveId : Option String
  severity : RiskLevel
  cvssScore : ℚ
  exploitAvailable : Bool
  exploitPublic : Bool
  activelyExploited : Bool
  patchAvailable : Bool
  attackVector : Option String
  publishedAgeDays : Option ℚ
deriving DecidableEq, Repr

/-- `Asset` dataclass (the fields read by the engines).  `riskScore` models
the `_risk_score` backing field through its getter, which returns `0.0`
until a score has been written. -/
structure Asset where
  id : String
  name : String
  criticality : AssetCriticality
  vulnerabilityIds : List String
  location : Option String
  exposedToInternet : Bool
  containsSensitiveData : Bool
  patchLevel : String
  antivirusStatus : String
  firewallEnabled : Bool
  riskScore : ℚ
deriving DecidableEq, Repr

/-- `RiskCalculationResult` dataclass.  The wall-clock `calculated_at`
timestamp is metadata outside the numeric computation and is not modelled.
`riskFactors` is the insertion-ordered dict. -/
structure RiskCalculationResult where
  assetId : String
  totalRiskScore : ℚ
  vulnerabilityRisk : ℚ
  exposureRisk : ℚ
  criticalityMultiplier : ℚ
  threatIntelligenceFactor : ℚ
  contributingVulnerabilities : List String
  riskFactors : List (String × ℚ)
  recommendations : List String
deriving DecidableEq, Repr

/-- `RiskScenario` dataclass (computation-relevant fields; the wall-clock
timestamps and log-evidence fields are not modelled). -/
structure RiskScenario where
  id : String
  title : String
  description : String
  category : String
  severity : RiskLevel
  likelihood : String
  impact : String
  affectedAssetIds : List String
  correlatedVulnerabilityIds : List String
  mitreTactics : List String
  mitreTechniques : List String
  businessRiskScore : ℚ
  detectionCoverage : ℚ
  remediationPlan : String
deriving DecidableEq, Repr

/-- The mutable state of `RiskCalculationEngine`: `assets` and `vulns` model
the id-keyed dicts (list order = insertion order), `threatIntel` the
CVE→score dict. -/
structure Engine where
  assets : List Asset
  vulns : List (String × Vulnerability)
  threatIntel : List (String × ℚ)
  scenarios : List RiskScenario
deriving DecidableEq, Repr

/-- The dict returned by `get_risk_summary` (the empty-assets branch of the
source returns a dict without the medium/low/scenario keys; it is modelled
with zero counts). -/
structure RiskSummary where
  totalAssets : Nat
  totalVulnerabilities : Nat
  averageRiskScore : ℚ
  criticalAssets : Nat
  highRiskAssets : Nat
  mediumRiskAssets : Nat
  lowRiskAssets : Nat
  riskScenarios : Nat
deriving DecidableEq, Repr

/-! ## RiskCalculationEngine (`engines/risk_engine.py`) -/

/-- `CVSS_MULTIPLIERS` table (all five enum values are present, so the
`.get` default `0.5` is unreachable). -/
def CVSS_MULTIPLIERS : RiskLevel → ℚ
  | .critical => 1
  | .high => 8/10
  | .medium => 5/10
  | .low => 2/10
  | .informational => 0

/-- `CRITICALITY_MULTIPLIERS` table (all four enum values are present, so
the `.get` default `1.0` is unreachable). -/
def CRITICALITY_MULTIPLIERS : AssetCriticality → ℚ
  | .missionCritical => 2
  | .high => 3/2
  | .medium => 1
  | .low => 1/2

/-- `vector_multipliers.get(vuln.attack_vector, 1.0)` in
`calculate_vulnerability_risk`. -/
def vectorMult : Option String → ℚ
  | some "Network" => 13/10
  | some "Adjacent" => 11/10
  | some "Local" => 9/10
  | some "Physical" => 6/10
  | _ => 1

/-- The threat-intelligence multiplier of `calculate_vulnerability_risk`:
`1 + threat_intel[cve_id]*0.5` when `vuln.cve_id` is truthy (a non-empty
string) and present in the map, else `1.0`. -/
def threatMult (ti : List (String × ℚ)) : Option String → ℚ
  | none => 1
  | some c =>
    if c = "" then 1
    else
      match ti.lookup c with
      | none => 1
      | some s => 1 + s * (5/10)

/-- `RiskCalculationEngine.calculate_vulnerability_risk`. -/
def calculate_vulnerability_risk (ti : List (String × ℚ)) (v : Vulnerability) : ℚ :=
  let base := v.cvssScore / 10 * 100
  let sevMult := CVSS_MULTIPLIERS v.severity
  let exploitFactor : ℚ := if v.exploitPublic then 3/2 else if v.exploitAvailable then 13/10 else 1
  let patchFactor : ℚ := if v.patchAvailable then 7/10 else 1
  let vecMult := vectorMult v.attackVector
  let thrMult := threatMult ti v.cveId
  min (base * sevMult * exploitFactor * patchFactor * vecMult * thrMult) 100

/-- `patch_scores.get(asset.patch_level, 20.0)` in `_calculate_exposure_risk`. -/
def patchScores : String → ℚ
  | "Current" => 0
  | "Outdated" => 15
  | "Critical" => 30
  | "Unknown" => 20
  | _ => 20

/-- `av_scores.get(asset.antivirus_status, 15.0)` in `_calculate_exposure_risk`. -/
def avScores : String → ℚ
  | "Active" => 0
  | "Outdated" => 10
  | "Inactive" => 20
  | "Unknown" => 15
  | _ => 15

/-- `RiskCalculationEngine._calculate_exposure_risk`. -/
def calculate_exposure_risk (a : Asset) : ℚ :=
  min ((if a.exposedToInternet then (30:ℚ) else 0)
      + (if a.containsSensitiveData then 25 else 0)
      + patchScores a.patchLevel
      + avScores a.antivirusStatus
      + (if a.firewallEnabled then 0 else 15)) 100

/-- The threat scores gathered by `_calculate_threat_factor`: the intel
entries of those vulnerabilities with a truthy `cve_id` present in the map. -/
def threatScoresOf (ti : List (String × ℚ)) (vulns : List Vulnerability) : List ℚ :=
  vulns.filterMap (fun v =>
    match v.cveId with
    | none => none
    | some c => if c = "" then none else ti.lookup c)

/-- `RiskCalculationEngine._calculate_threat_factor`: `1 + max(threat_scores)`
when any score was found, else `1.0` (also for the empty vulnerability list). -/
def calculate_threat_factor (ti : List (String × ℚ)) (vulns : List Vulnerability) : ℚ :=
  match threatScoresOf ti vulns with
  | [] => 1
  | t :: ts => 1 + ts.foldl max t

/-- The descending weighted average of `calculate_asset_risk`: the top
score weighs `0.6`, the remaining scores split `0.4` evenly.  (`sorted`
with `reverse=True` is a stable descending sort.) -/
def weightedVulnRisk (scores : List ℚ) : ℚ :=
  match List.insertionSort (fun a b : ℚ => b ≤ a) scores with
  | [] => 0
  | [s] => s
  | s :: rest =>
    s * (6/10) + ((rest.map (fun q => q * ((4:ℚ)/10 / (rest.length : ℚ)))).sum)

/-- `[self.vulnerabilities[vid] for vid in asset.vulnerability_ids if vid in
self.vulnerabilities]` — dangling ids are dropped. -/
def resolvedVulns (vmap : List (String × Vulnerability)) (a : Asset) : List Vulnerability :=
  a.vulnerabilityIds.filterMap (fun vid => vmap.lookup vid)

/-- Recommendation strings of `_generate_recommendations` (bound to names so
each literal sits after `:=`). -/
def msgNoVulns : String := "No vulnerabilities detected. Continue regular scanning."

def msgUrgentPre : String := "URGENT: Patch "

def msgUrgentPost : String := " critical vulnerabilities immediately"

def msgHighPre : String := "Prioritize patching "

def msgHighPost : String := " high-severity vulnerabilities"

def msgExploitPre : String := "Address "

def msgExploitPost : String := " vulnerabilities with public exploits"

def msgExposure : String := "Consider reducing internet exposure or implementing additional network controls"

def msgPatches : String := "Update system patches to current level"

def msgAntivirus : String := "Ensure antivirus is active and up-to-date"

def msgFirewall : String := "Enable host-based firewall"

/-- `RiskCalculationEngine._generate_recommendations`: condition-guarded
messages in priority order, truncated to the first 5. -/
def generate_recommendations (a : Asset) (vulns : List Vulnerability) : List String :=
  let criticalVulns := vulns.filter (fun v => v.severity == RiskLevel.critical)
  let highVulns := vulns.filter (fun v => v.severity == RiskLevel.high)
  let exploitVulns := vulns.filter (fun v => v.exploitPublic)
  let recs :=
    (if criticalVulns.length ≠ 0 then
        [msgUrgentPre ++ toString criticalVulns.length ++ msgUrgentPost] else [])
    ++ (if highVulns.length ≠ 0 then
        [msgHighPre ++ toString highVulns.length ++ msgHighPost] else [])
    ++ (if exploitVulns.length ≠ 0 then
        [msgExploitPre ++ toString exploitVulns.length ++ msgExploitPost] else [])
    ++ (if a.exposedToInternet then [msgExposure] else [])
    ++ (if a.patchLevel = "Outdated" ∨ a.patchLevel = "Critical" then [msgPatches] else [])
    ++ (if a.antivirusStatus ≠ "Active" then [msgAntivirus] else [])
    ++ (if a.firewallEnabled then [] else [msgFirewall])
  recs.take 5

/-- `round(x, 2)` used for the risk-factor breakdown entries.  (Round-half
semantics is irrelevant to every stated property: these entries are only
ever compared against themselves.) -/
def round2 (q : ℚ) : ℚ := (round (q * 100) : ℤ) / 100

/-- `RiskCalculationEngine.calculate_asset_risk`.  The Python method
mutates `asset.risk_score`; the embedding returns the result together with
the updated asset. -/
def calculate_asset_risk (vmap : List (String × Vulnerability)) (ti : List (String × ℚ))
    (asset : Asset) : RiskCalculationResult × Asset :=
  let assetVulns := resolvedVulns vmap asset
  if assetVulns = [] then
    ({ assetId := asset.id
       totalRiskScore := 0
       vulnerabilityRisk := 0
       exposureRisk := 0
       criticalityMultiplier := 1
       threatIntelligenceFactor := 1
       contributingVulnerabilities := []
       riskFactors := []
       recommendations := [msgNoVulns] }, asset)
  else
    let vulnScores := assetVulns.map (calculate_vulnerability_risk ti)
    let vulnerabilityRisk := weightedVulnRisk vulnScores
    let exposureRisk := calculate_exposure_risk asset
    let criticalityMult := CRITICALITY_MULTIPLIERS asset.criticality
    let threatFactor := calculate_threat_factor ti assetVulns
    let totalRisk0 :=
      (vulnerabilityRisk * (35/100) + exposureRisk * (10/100)
        + vulnerabilityRisk * criticalityMult * (20/100)
        + vulnerabilityRisk * threatFactor * (10/100))
      / (35/100 + 10/100 + 20/100 + 10/100)
    let totalRisk := min (totalRisk0 * criticalityMult) 100
    let asset1 := { asset with riskScore := totalRisk }
    let recommendations := generate_recommendations asset1 assetVulns
    let riskFactors : List (String × ℚ) :=
      [("vulnerability_base", round2 vulnerabilityRisk),
       ("exposure", round2 exposureRisk),
       ("criticality", round2 criticalityMult),
       ("threat_intelligence", round2 threatFactor),
       ("total_vulnerabilities", (assetVulns.length : ℚ)),
       ("critical_vulnerabilities",
         ((assetVulns.filter (fun v => v.severity == RiskLevel.critical)).length : ℚ)),
       ("high_vulnerabilities",
         ((assetVulns.filter (fun v => v.severity == RiskLevel.high)).length : ℚ))]
    ({ assetId := asset.id
       totalRiskScore := totalRisk
       vulnerabilityRisk := vulnerabilityRisk
       exposureRisk := exposureRisk
       criticalityMultiplier := criticalityMult
       threatIntelligenceFactor := threatFactor
       contributingVulnerabilities := assetVulns.map (fun v => v.id)
       riskFactors := riskFactors
       recommendations := recommendations }, asset1)

/-- `RiskCalculationEngine.get_risk_summary`. -/
def get_risk_summary (e : Engine) : RiskSummary :=
  if e.assets = [] then
    { totalAssets := 0, totalVulnerabilities := 0, averageRiskScore := 0
      criticalAssets := 0, highRiskAssets := 0
      mediumRiskAssets := 0, lowRiskAssets := 0, riskScenarios := 0 }
  else
    { totalAssets := e.assets.length
      totalVulnerabilities := e.vulns.length
      averageRiskScore := (e.assets.map (fun a => a.riskScore)).sum / (e.assets.length : ℚ)
      criticalAssets := e.assets.countP (fun a => decide (90 ≤ a.riskScore))
      highRiskAssets := e.assets.countP (fun a => decide (70 ≤ a.riskScore))
      mediumRiskAssets := e.assets.countP (fun a => decide (40 ≤ a.riskScore) && decide (a.riskScore < 70))
      lowRiskAssets := e.assets.countP (fun a => decide (a.riskScore < 40))
      riskScenarios := e.scenarios.length }

/-! ## Scenario correlation (`generate_risk_scenarios` and helpers) -/

/-- `v.cve_id or v.id` — falls back to the internal id when `cve_id` is
`None` or the empty string. -/
def cveOrId (v : Vulnerability) : String :=
  match v.cveId with
  | none => v.id
  | some c => if c = "" then v.id else c

def commaSep : String := ", "

def msMultiStagePre : String := "Multi-Stage Exploitation of "

def msMultiStageDescrPre : String := "Multiple critical vulnerabilities on "

def msMultiStageDescrPost : String :=
  " could be chained for privilege escalation and lateral movement"

def msMultiStageCategory : String := "Multi-Stage Attack"

def msRemediationPre : String := "1. Immediately patch vulnerabilities "

def msRemediationPost : String :=
  ". 2. Implement network segmentation. 3. Enable EDR monitoring."

def breachTitlePre : String := "Internet-Facing Asset Compromise: "

def breachDescrPost : String :=
  " is exposed to the internet with critical vulnerabilities, creating immediate breach risk"

def breachCategory : String := "Data Breach & Exfiltration"

def breachRemediation : String :=
  "1. Remove internet exposure or place behind WAF. 2. Emergency patch critical CVEs. 3. Implement IDS/IPS rules."

def lateralTitlePre : String := "Lateral Movement Risk in "

def lateralDescrPre : String := "Multiple high-risk assets in "

def lateralDescrPost : String := " create lateral movement opportunities"

def lateralCategory : String := "Unauthorized Lateral Movement"

def lateralRemediation : String :=
  "1. Implement network segmentation. 2. Enable lateral movement detection. 3. Reduce attack surface."

/-- `RiskCalculationEngine._create_exploitation_scenario`.  It recomputes
the asset risk (mutating the asset's `riskScore`), so the updated asset is
returned alongside the scenario. -/
def create_exploitation_scenario (vmap : List (String × Vulnerability))
    (ti : List (String × ℚ)) (asset : Asset) (vulns : List Vulnerability) :
    RiskScenario × Asset :=
  let vulnIds := vulns.map (fun v => v.id)
  let riskCalc := calculate_asset_risk vmap ti asset
  let businessRisk := min (riskCalc.1.totalRiskScore * (12/10)) 100
  ({ id := "rs_exploit_" ++ asset.id
     title := msMultiStagePre ++ asset.name
     description := msMultiStageDescrPre ++ asset.name ++ msMultiStageDescrPost
     category := msMultiStageCategory
     severity := RiskLevel.critical
     likelihood := "Likely"
     impact := "Catastrophic"
     affectedAssetIds := [asset.id]
     correlatedVulnerabilityIds := vulnIds
     mitreTactics := ["Initial Access", "Privilege Escalation", "Lateral Movement"]
     mitreTechniques := ["T1190", "T1068", "T1021"]
     businessRiskScore := businessRisk
     detectionCoverage := 60
     remediationPlan := msRemediationPre
       ++ String.intercalate commaSep ((vulns.take 3).map cveOrId)
       ++ msRemediationPost }, riskCalc.2)

/-- `RiskCalculationEngine._create_internet_breach_scenario`. -/
def create_internet_breach_scenario (asset : Asset) (vulns : List Vulnerability) :
    RiskScenario :=
  { id := "rs_breach_" ++ asset.id
    title := breachTitlePre ++ asset.name
    description := asset.name ++ breachDescrPost
    category := breachCategory
    severity := RiskLevel.critical
    likelihood := "Certain"
    impact := "Catastrophic"
    affectedAssetIds := [asset.id]
    correlatedVulnerabilityIds := vulns.map (fun v => v.id)
    mitreTactics := ["Initial Access", "Execution", "Exfiltration"]
    mitreTechniques := ["T1190", "T1059", "T1041"]
    businessRiskScore := 95
    detectionCoverage := 45
    remediationPlan := breachRemediation }

/-- `asset.location or "Unknown"` — `None` or the empty string group under
the key `"Unknown"`. -/
def locationKey (a : Asset) : String :=
  match a.location with
  | none => "Unknown"
  | some l => if l = "" then "Unknown" else l

/-- `RiskCalculationEngine._identify_lateral_movement`: group assets by
location (first-occurrence order, as a Python dict), then emit one scenario
per location holding ≥2 assets of which ≥2 have `riskScore > 70`. -/
def identify_lateral_movement (assets : List Asset) : List RiskScenario :=
  let locs := (assets.map locationKey).eraseDups
  locs.filterMap (fun loc =>
    let group := assets.filter (fun a => locationKey a == loc)
    if group.length < 2 then none
    else
      let highRisk := group.filter (fun a => decide (70 < a.riskScore))
      if 2 ≤ highRisk.length then
        some { id := "rs_lateral_" ++ loc
               title := lateralTitlePre ++ loc
               description := lateralDescrPre ++ loc ++ lateralDescrPost
               category := lateralCategory
               severity := RiskLevel.high
               likelihood := "Possible"
               impact := "Significant"
               affectedAssetIds := highRisk.map (fun a => a.id)
               correlatedVulnerabilityIds := []
               mitreTactics := ["Lateral Movement", "Discovery"]
               mitreTechniques := ["T1021", "T1018"]
               businessRiskScore := 75
               detectionCoverage := 55
               remediationPlan := lateralRemediation }
      else none)

/-- The scenarios the per-asset loop of `generate_risk_scenarios` emits for
one asset (exploitation scenario first, then internet-breach scenario),
together with that asset's state after the loop body. -/
def scenariosForAsset (vmap : List (String × Vulnerability)) (ti : List (String × ℚ))
    (a : Asset) : List RiskScenario × Asset :=
  let assetVulns := resolvedVulns vmap a
  if assetVulns = [] then ([], a)
  else
    let criticalVulns := assetVulns.filter (fun v => v.severity == RiskLevel.critical)
    let step1 : List RiskScenario × Asset :=
      if 2 ≤ criticalVulns.length then
        let sc := create_exploitation_scenario vmap ti a criticalVulns
        ([sc.1], sc.2)
      else ([], a)
    let step2 : List RiskScenario :=
      if step1.2.exposedToInternet && !criticalVulns.isEmpty then
        [create_internet_breach_scenario step1.2 criticalVulns]
      else []
    (step1.1 ++ step2, step1.2)

/-- `RiskCalculationEngine.generate_risk_scenarios`.  The source loop walks
the asset dict in order; each iteration reads only the current asset plus
the read-only vulnerability and threat-intel maps and mutates only that
asset's own `riskScore`, so it is the concatenation of the per-asset
scenario lists, followed by the lateral-movement scenarios computed over
the updated assets.  The new scenario list replaces the stored one. -/
def generate_risk_scenarios (e : Engine) : List RiskScenario × Engine :=
  let perAsset := e.assets.map (scenariosForAsset e.vulns e.threatIntel)
  let newAssets := perAsset.map (fun p => p.2)
  let scens := (perAsset.map (fun p => p.1)).flatten ++ identify_lateral_movement newAssets
  (scens, { e with assets := newAssets, scenarios := scens })

/-! ## UltraPreciseRiskEngine (`engines/ultra_precise_risk_engine.py`)

The ensemble layer is modelled over `ℝ` because `np.std` takes a square
root.  Branch conditions on reals use classical decidability. -/

noncomputable section

attribute [local instance] Classical.propDecidable

/-- `np.mean` (population mean; never called on an empty list by the
engine — Lean's division by zero would yield 0 there). -/
def meanR (l : List ℝ) : ℝ := l.sum / (l.length : ℝ)

/-- `np.max` via `max(...)` folding (never called on an empty list). -/
def maxR (l : List ℝ) : ℝ :=
  match l with
  | [] => 0
  | x :: xs => xs.foldl max x

/-- `np.var` (population variance). -/
def varR (l : List ℝ) : ℝ := meanR (l.map (fun x => (x - meanR l) ^ 2))

/-- `np.std` (population standard deviation). -/
def stdR (l : List ℝ) : ℝ := Real.sqrt (varR l)

/-- The `UltraPreciseRiskScore` dataclass. -/
structure UltraPreciseRiskScore where
  score : ℝ
  confidence : ℝ
  uncertainty : ℝ
  confidenceInterval : ℝ × ℝ
  riskLevel : String
  contributingFactors : List (String × ℝ)
  modelAgreement : ℝ
  validationPassed : Bool
  precisionLevel : String

/-- `crit_map.get(asset.criticality.value, 4)` in
`_extract_ultra_precise_features` (all four enum values are present). -/
def critVal : AssetCriticality → ℝ
  | .missionCritical => 10
  | .high => 7
  | .medium => 4
  | .low => 1

/-- `patch_encoding.get(asset.patch_level, 0.7)`. -/
def patchEncoding : String → ℝ
  | "Current" => 0
  | "Outdated" => 1/2
  | "Critical" => 1
  | "Unknown" => 7/10
  | _ => 7/10

/-- The feature-vector entries of `_extract_ultra_precise_features` that
the ensemble models, uncertainty, confidence, interval and explainability
steps read (features computed but never read downstream — percentiles,
median, skewness, complexity/privilege counts, composite indicators — are
not modelled). -/
structure Features where
  vulnCountTotal : ℕ
  vulnCountCritical : ℕ
  vulnCountHigh : ℕ
  vulnCountMedium : ℕ
  vulnCountLow : ℕ
  cvssMean : ℝ
  cvssMax : ℝ
  exploitAvailableCount : ℕ
  exploitPublicCount : ℕ
  activelyExploitedCount : ℕ
  exploitRatio : ℝ
  vulnAgeMean : ℝ
  patchAvailableCount : ℕ
  patchCoverage : ℝ
  assetCriticality : ℝ
  assetExposed : ℝ
  assetPatchLevel : ℝ
  severityVariance : ℝ

/-- `UltraPreciseRiskEngine._extract_ultra_precise_features` (the entries
listed in `Features`). -/
def extract_features (asset : Asset) (vulns : List Vulnerability) : Features :=
  let n := vulns.length
  let cvss : List ℝ := vulns.map (fun v => (v.cvssScore : ℝ))
  let ages : List ℝ := vulns.filterMap (fun v => v.publishedAgeDays.map (fun d => (d : ℝ)))
  let exploitAvailableCount := vulns.countP (fun v => v.exploitAvailable)
  let patchAvailableCount := vulns.countP (fun v => v.patchAvailable)
  { vulnCountTotal := n
    vulnCountCritical := vulns.countP (fun v => decide ((9 : ℚ) ≤ v.cvssScore))
    vulnCountHigh := vulns.countP (fun v => decide ((7 : ℚ) ≤ v.cvssScore ∧ v.cvssScore < 9))
    vulnCountMedium := vulns.countP (fun v => decide ((4 : ℚ) ≤ v.cvssScore ∧ v.cvssScore < 7))
    vulnCountLow := vulns.countP (fun v => decide (v.cvssScore < (4 : ℚ)))
    cvssMean := meanR cvss
    cvssMax := maxR cvss
    exploitAvailableCount := exploitAvailableCount
    exploitPublicCount := vulns.countP (fun v => v.exploitPublic)
    activelyExploitedCount := vulns.countP (fun v => v.activelyExploited)
    exploitRatio := (exploitAvailableCount : ℝ) / (n : ℝ)
    vulnAgeMean := if ages = [] then 0 else meanR ages
    patchAvailableCount := patchAvailableCount
    patchCoverage := (patchAvailableCount : ℝ) / (n : ℝ)
    assetCriticality := critVal asset.criticality
    assetExposed := if asset.exposedToInternet then 1 else 0
    assetPatchLevel := patchEncoding asset.patchLevel
    severityVariance := varR cvss }

/-- `BayesianRiskModel.predict`. -/
def bayesian_predict (f : Features) : ℝ :=
  min (f.cvssMean * 10 * (1 + f.exploitRatio * (1/2)) * (1/2 + f.assetCriticality / 10)) 100

/-- `GradientBoostingRiskModel.predict`. -/
def gradient_boosting_predict (f : Features) : ℝ :=
  min (((f.vulnCountCritical : ℝ) * 28 + (f.vulnCountHigh : ℝ) * 16
      + (f.activelyExploitedCount : ℝ) * 20) * (1/2 + f.assetCriticality / 10)) 100

/-- `NeuralNetworkRiskModel.predict`. -/
def neural_network_predict (f : Features) : ℝ :=
  min (f.cvssMax * 8 + f.exploitRatio * 10 * 15 + f.assetCriticality * 7
      + f.assetExposed * 10 * 10) 100

/-- `MarkovChainRiskModel.predict`. -/
def markov_predict (f : Features) : ℝ :=
  min (f.cvssMean * 10 * (1 + f.exploitRatio * (3/10))) 100

/-- `UltraPreciseRiskEngine._rules_based_prediction`. -/
def rules_based_prediction (f : Features) : ℝ :=
  let risk0 : ℝ := (f.vulnCountCritical : ℝ) * 30 + (f.vulnCountHigh : ℝ) * 15
    + (f.vulnCountMedium : ℝ) * 7 + (f.vulnCountLow : ℝ) * 2
  let risk1 : ℝ :=
    if 0 < f.activelyExploitedCount then risk0 * (3/2)
    else if 0 < f.exploitPublicCount then risk0 * (13/10)
    else if 0 < f.exploitAvailableCount then risk0 * (12/10)
    else risk0
  let risk2 : ℝ := if 0 < f.assetExposed then risk1 * (13/10) else risk1
  let risk3 : ℝ := risk2 * (1/2 + (f.assetCriticality / 10) * (3/2))
  min risk3 100

/-- `UltraPreciseRiskEngine._get_ensemble_predictions` (fixed model order). -/
def ensemble_predictions (f : Features) : List ℝ :=
  [bayesian_predict f, gradient_boosting_predict f, neural_network_predict f,
   markov_predict f, rules_based_prediction f]

/-- `UltraPreciseRiskEngine._calculate_model_agreement`:
`1 − min(std/mean, 1)`, with 0 for fewer than two predictions and 1 when
the mean is zero. -/
def model_agreement (preds : List ℝ) : ℝ :=
  if preds.length < 2 then 0
  else
    let m := meanR preds
    if m = 0 then 1
    else 1 - min (stdR preds / m) 1

/-- `StackingEnsemble.predict` with the tuned weights
`[0.25, 0.25, 0.20, 0.15, 0.15]`. -/
def stacking_predict (preds : List ℝ) : ℝ :=
  ((preds.zip [1/4, 1/4, 1/5, 3/20, 3/20]).map (fun pw => pw.1 * pw.2)).sum

/-- `ProbabilityCalibrator.calibrate` — a documented pass-through. -/
def calibrate (score : ℝ) : ℝ := score

/-- `ConformalPredictor.predict_interval`: symmetric margin
`severity_variance × 2.576` clipped to `[0, 100]`. -/
def predict_interval (point : ℝ) (f : Features) : ℝ × ℝ :=
  let margin := f.severityVariance * (2576/1000)
  (max 0 (point - margin), min 100 (point + margin))

/-- `UltraPreciseRiskEngine._quantify_uncertainty`. -/
def quantify_uncertainty (preds : List ℝ) (f : Features) : ℝ :=
  let predUncertainty := stdR preds / 100
  let featureUncertainty : ℝ :=
    (if f.vulnAgeMean = 0 then 2/100 else 0)
    + (if 6/10 < f.assetPatchLevel then 1/100 else 0)
    + (if f.vulnCountTotal < 3 then 3/100 else 0)
  min (predUncertainty + featureUncertainty) 1

/-- `UltraPreciseRiskEngine._calculate_confidence`. -/
def calc_confidence (agreement uncertainty : ℝ) (vulnCount : ℕ) (f : Features) : ℝ :=
  let c1 := agreement * (1 - uncertainty)
  let c2 :=
    if vulnCount < 3 then c1 * (7/10)
    else if vulnCount < 5 then c1 * (85/100)
    else if 10 < vulnCount then c1 * (105/100)
    else c1
  let c3 := if 0 < f.vulnAgeMean then c2 * (102/100) else c2
  let c4 := if 0 < f.patchCoverage then c3 * (102/100) else c3
  min c4 1

/-- `UltraPreciseRiskEngine._categorize_risk_ultra_precise`. -/
def categorize_risk_ultra_precise (score confidence uncertainty : ℝ) : String :=
  if 95 ≤ score ∧ 95/100 ≤ confidence ∧ uncertainty ≤ 5/100 then "Critical"
  else if 85 ≤ score ∧ 9/10 ≤ confidence then "High"
  else if 60 ≤ score then "Medium"
  else if 30 ≤ score then "Low"
  else "Informational"

/-- `UltraPreciseRiskEngine._zero_risk_score`. -/
def zero_risk_score : UltraPreciseRiskScore :=
  { score := 0
    confidence := 1
    uncertainty := 0
    confidenceInterval := (0, 0)
    riskLevel := "Informational"
    contributingFactors := []
    modelAgreement := 1
    validationPassed := true
    precisionLevel := "ultra_high" }

/-- `UltraPreciseRiskEngine._low_confidence_score`. -/
def low_confidence_score (preds : List ℝ) (agreement : ℝ) : UltraPreciseRiskScore :=
  { score := meanR preds
    confidence := agreement
    uncertainty := 1/2
    confidenceInterval := (0, 100)
    riskLevel := "Uncertain"
    contributingFactors := [("model_disagreement", 1 - agreement)]
    modelAgreement := agreement
    validationPassed := false
    precisionLevel := "low" }

/-- `UltraPreciseRiskEngine._explain_risk_factors`. -/
def explain_risk_factors (f : Features) : List (String × ℝ) :=
  [("vulnerability_severity",
     min ((f.vulnCountCritical : ℝ) * 25 + (f.vulnCountHigh : ℝ) * 15
        + (f.vulnCountMedium : ℝ) * 7) 100),
   ("exploitation_status",
     min ((f.activelyExploitedCount : ℝ) * 40 + (f.exploitPublicCount : ℝ) * 25
        + (f.exploitAvailableCount : ℝ) * 15) 100),
   ("internet_exposure", f.assetExposed * 100),
   ("asset_criticality", f.assetCriticality * 10),
   ("missing_patches", (1 - f.patchCoverage) * 100)]

/-- `UltraPreciseRiskEngine._validate_against_ground_truth`. -/
def validate_against_ground_truth (groundTruth : ℝ) (ci : ℝ × ℝ) : Bool :=
  decide (ci.1 ≤ groundTruth ∧ groundTruth ≤ ci.2)

/-- `UltraPreciseRiskEngine._correlate_with_history`: ×1.1 when the
historical data records ≥1 previous compromise, clamped to 100.  The
caller only invokes it when historical data was supplied (a truthy dict). -/
def correlate_with_history (score : ℝ) (previousCompromises : ℕ) : ℝ :=
  min (score * (if 0 < previousCompromises then 11/10 else 1)) 100

/-- `UltraPreciseRiskEngine.calculate_ultra_precise_risk`.  `hist` models
the optional `historical_data` dict by its `previous_compromises` entry
(`none` = falsy dict absent); `groundTruth` the optional ground truth.
The prediction-history append touches no returned value and is not
modelled. -/
def calculate_ultra_precise_risk (asset : Asset) (vulns : List Vulnerability)
    (hist : Option ℕ) (groundTruth : Option ℝ) : UltraPreciseRiskScore :=
  if vulns = [] then zero_risk_score
  else
    let f := extract_features asset vulns
    let preds := ensemble_predictions f
    let agreement := model_agreement preds
    if agreement < 9/10 then low_confidence_score preds agreement
    else
      let baseScore := stacking_predict preds
      let calibratedScore := calibrate baseScore
      let confInterval := predict_interval baseScore f
      let uncertainty := quantify_uncertainty preds f
      let confidence := calc_confidence agreement uncertainty vulns.length f
      let validationPassed :=
        match groundTruth with
        | none => true
        | some gt => validate_against_ground_truth gt confInterval
      let finalScore :=
        match hist with
        | none => calibratedScore
        | some h => correlate_with_history calibratedScore h
      let precisionLevel :=
        if 95/100 ≤ confidence ∧ 9/10 ≤ agreement ∧ uncertainty ≤ 5/100
        then "ultra_high" else "standard"
      { score := finalScore
        confidence := confidence
        uncertainty := uncertainty
        confidenceInterval := confInterval
        riskLevel := categorize_risk_ultra_precise finalScore confidence uncertainty
        contributingFactors := explain_risk_factors f
        modelAgreement := agreement
        validationPassed := validationPassed
        precisionLevel := precisionLevel }

end

/-! ## Concrete instances used by witnesses and counterexamples -/

def wVuln1 : Vulnerability :=
  { id := "v1", cveId := some "CVE-2024-0001", severity := .critical, cvssScore := 98/10,
    exploitAvailable := true, exploitPublic := true, activelyExploited := true,
    patchAvailable := false, attackVector := some "Network", publishedAgeDays := some 10 }

def wVuln2 : Vulnerability :=
  { id := "v2", cveId := some "CVE-2024-0002", severity := .critical, cvssScore := 91/10,
    exploitAvailable := true, exploitPublic := false, activelyExploited := false,
    patchAvailable := true, attackVector := some "Local", publishedAgeDays := none }

def wVulnZero : Vulnerability :=
  { id := "v0", cveId := none, severity := .informational, cvssScore := 0,
    exploitAvailable := false, exploitPublic := false, activelyExploited := false,
    patchAvailable := false, attackVector := none, publishedAgeDays := none }

def wVmap : List (String × Vulnerability) := [("v1", wVuln1), ("v2", wVuln2)]

def wTi : List (String × ℚ) := [("CVE-2024-0001", 1/2)]

def wAsset : Asset :=
  { id := "a1", name := "db server", criticality := .medium,
    vulnerabilityIds := ["v1", "v2"], location := some "dc1",
    exposedToInternet := true, containsSensitiveData := true,
    patchLevel := "Outdated", antivirusStatus := "Active",
    firewallEnabled := true, riskScore := 0 }

def wAssetDangling : Asset := { wAsset with id := "a2", vulnerabilityIds := ["missing"] }

def wAssetLow : Asset :=
  { id := "a3", name := "printer", criticality := .low, vulnerabilityIds := ["v0"],
    location := none, exposedToInternet := false, containsSensitiveData := false,
    patchLevel := "Current", antivirusStatus := "Active", firewallEnabled := true,
    riskScore := 0 }

def cxAsset95 : Asset := { wAsset with id := "a9", vulnerabilityIds := [], riskScore := 95 }

def cxEngine : Engine :=
  { assets := [cxAsset95], vulns := [], threatIntel := [], scenarios := [] }

def wEngine : Engine :=
  { assets := [wAsset], vulns := wVmap, threatIntel := wTi, scenarios := [] }

/-! ## Helper lemmas -/

theorem lookup_mem {β : Type} {l : List (String × β)} {k : String} {v : β}
    (h : l.lookup k = some v) : (k, v) ∈ l := by
  induction l with
  | nil => simp [List.lookup] at h
  | cons p t ih =>
    obtain ⟨k', v'⟩ := p
    rw [List.lookup_cons] at h
    by_cases hk : k = k'
    · have hb : (k == k') = true := beq_iff_eq.mpr hk
      simp only [hb, Option.some.injEq] at h
      subst hk
      subst h
      exact List.mem_cons_self _ _
    · have hb : (k == k') = false := beq_eq_false_iff_ne.mpr hk
      simp only [hb] at h
      exact List.mem_cons_of_mem _ (ih h)

theorem bucket_tri (l : List Asset) :
    l.countP (fun a => decide (70 ≤ a.riskScore))
      + l.countP (fun a => decide (40 ≤ a.riskScore) && decide (a.riskScore < 70))
      + l.countP (fun a => decide (a.riskScore < 40)) = l.length := by
  induction l with
  | nil => simp
  | cons a t ih =>
    simp only [List.countP_cons, List.length_cons]
    by_cases h7 : (70:ℚ) ≤ a.riskScore
    · have h4 : ¬(a.riskScore < 70) := not_lt.mpr h7
      have hl : ¬(a.riskScore < 40) := by linarith
      simp [h7, h4, hl]
      omega
    · by_cases h4 : (40:ℚ) ≤ a.riskScore
      · have hm : a.riskScore < 70 := lt_of_not_le h7
        have hl : ¬(a.riskScore < 40) := not_lt.mpr h4
        simp [h7, h4, hm, hl]
        omega
      · have hl : a.riskScore < 40 := lt_of_not_le h4
        simp [h7, h4, hl]
        omega

/-- C1 counterexample: with a single asset whose stored risk score is 95,
the four bucket counts of `get_risk_summary` sum to 2, not to the total
asset count 1 — the critical bucket (≥90) is also counted by the high
bucket (≥70), so the buckets do not partition the assets. -/
theorem risk_buckets_counterexample :
    (get_risk_summary cxEngine).totalAssets = 1
    ∧ (get_risk_summary cxEngine).criticalAssets = 1
    ∧ (get_risk_summary cxEngine).highRiskAssets = 1
    ∧ (get_risk_summary cxEngine).criticalAssets + (get_risk_summary cxEngine).highRiskAssets
        + (get_risk_summary cxEngine).mediumRiskAssets + (get_risk_summary cxEngine).lowRiskAssets
      ≠ (get_risk_summary cxEngine).totalAssets := by
  decide

/-- C1 (amended).  The claim as stated is false: the source counts
`high_risk_assets` as score ≥ 70 with no upper bound, so every critical
asset (score ≥ 90) is counted twice.  Amended: the high (≥70),
medium ([40,70)) and low (<40) buckets partition the assets exactly —
their counts sum to the total asset count — while critical (≥90) is a
sub-bucket of high, so the four reported counts sum to the total plus the
critical count. -/
theorem risk_buckets_amended (e : Engine) :
    (get_risk_summary e).highRiskAssets + (get_risk_summary e).mediumRiskAssets
        + (get_risk_summary e).lowRiskAssets = (get_risk_summary e).totalAssets
      ∧ (get_risk_summary e).criticalAssets ≤ (get_risk_summary e).highRiskAssets
      ∧ (get_risk_summary e).criticalAssets + (get_risk_summary e).highRiskAssets
          + (get_risk_summary e).mediumRiskAssets + (get_risk_summary e).lowRiskAssets
        = (get_risk_summary e).totalAssets + (get_risk_summary e).criticalAssets := by
  by_cases h : e.assets = []
  · simp [get_risk_summary, h]
  · unfold get_risk_summary
    rw [if_neg h]
    dsimp only
    refine ⟨bucket_tri e.assets, ?_, ?_⟩
    · exact List.countP_mono_left (fun a _ hp => by
        simp only [decide_eq_true_eq] at *
        linarith)
    · have := bucket_tri e.assets
      omega

/-- C4: an asset none of whose vulnerability ids resolve yields total risk
score 0, an empty risk-factor breakdown, and exactly the single default
recommendation — a defined zero result, not an error. -/
theorem asset_risk_no_vulns (vmap : List (String × Vulnerability))
    (ti : List (String × ℚ)) (a : Asset) (h : resolvedVulns vmap a = []) :
    (calculate_asset_risk vmap ti a).1.totalRiskScore = 0
    ∧ (calculate_asset_risk vmap ti a).1.riskFactors = []
    ∧ (calculate_asset_risk vmap ti a).1.recommendations
        = ["No vulnerabilities detected. Continue regular scanning."] := by
  simp [calculate_asset_risk, h, msgNoVulns]

/-- C4 witness: a concrete asset whose only vulnerability id is dangling. -/
theorem asset_risk_no_vulns_witness :
    resolvedVulns wVmap wAssetDangling = []
    ∧ ((calculate_asset_risk wVmap wTi wAssetDangling).1.totalRiskScore = 0
      ∧ (calculate_asset_risk wVmap wTi wAssetDangling).1.riskFactors = []
      ∧ (calculate_asset_risk wVmap wTi wAssetDangling).1.recommendations
          = ["No vulnerabilities detected. Continue regular scanning."]) :=
  ⟨by decide, asset_risk_no_vulns wVmap wTi wAssetDangling (by decide)⟩

/-- C2: for an asset with at least one resolvable vulnerability the total
risk score equals the weighted sum
`(vr*0.35 + er*0.10 + vr*cm*0.20 + vr*tf*0.10) / 0.75`, multiplied again
by the criticality multiplier, clamped above at 100 — the criticality
multiplier is applied twice. -/
theorem total_risk_double_criticality (vmap : List (String × Vulnerability))
    (ti : List (String × ℚ)) (a : Asset) (h : ¬(resolvedVulns vmap a = [])) :
    (calculate_asset_risk vmap ti a).1.totalRiskScore =
      min ((((calculate_asset_risk vmap ti a).1.vulnerabilityRisk * (35/100)
          + (calculate_asset_risk vmap ti a).1.exposureRisk * (10/100)
          + (calculate_asset_risk vmap ti a).1.vulnerabilityRisk
              * (calculate_asset_risk vmap ti a).1.criticalityMultiplier * (20/100)
          + (calculate_asset_risk vmap ti a).1.vulnerabilityRisk
              * (calculate_asset_risk vmap ti a).1.threatIntelligenceFactor * (10/100))
          / (75/100))
        * (calculate_asset_risk vmap ti a).1.criticalityMultiplier) 100 := by
  unfold calculate_asset_risk
  rw [if_neg h]
  norm_num

/-- C2 witness: the formula instantiated at a concrete asset with two
resolvable vulnerabilities. -/
theorem total_risk_double_criticality_witness :
    ¬(resolvedVulns wVmap wAsset = [])
    ∧ (calculate_asset_risk wVmap wTi wAsset).1.totalRiskScore =
      min ((((calculate_asset_risk wVmap wTi wAsset).1.vulnerabilityRisk * (35/100)
          + (calculate_asset_risk wVmap wTi wAsset).1.exposureRisk * (10/100)
          + (calculate_asset_risk wVmap wTi wAsset).1.vulnerabilityRisk
              * (calculate_asset_risk wVmap wTi wAsset).1.criticalityMultiplier * (20/100)
          + (calculate_asset_risk wVmap wTi wAsset).1.vulnerabilityRisk
              * (calculate_asset_risk wVmap wTi wAsset).1.threatIntelligenceFactor * (10/100))
          / (75/100))
        * (calculate_asset_risk wVmap wTi wAsset).1.criticalityMultiplier) 100 :=
  ⟨by decide, total_risk_double_criticality wVmap wTi wAsset (by decide)⟩

theorem calc_snd_update (vmap : List (String × Vulnerability)) (ti : List (String × ℚ))
    (a : Asset) (h : ¬(resolvedVulns vmap a = [])) :
    (calculate_asset_risk vmap ti a).2
      = { a with riskScore := (calculate_asset_risk vmap ti a).1.totalRiskScore } := by
  unfold calculate_asset_risk
  rw [if_neg h]

/-- C9: for an asset with at least one resolvable vulnerability, the only
mutation `calculate_asset_risk` performs is writing the computed total
risk score to the asset's `riskScore` field; every other asset field is
unchanged (and the vulnerability map and threat-intelligence map are
read-only inputs of the embedding). -/
theorem asset_risk_frame (vmap : List (String × Vulnerability)) (ti : List (String × ℚ))
    (a : Asset) (h : ¬(resolvedVulns vmap a = [])) :
    (calculate_asset_risk vmap ti a).2
      = { a with riskScore := (calculate_asset_risk vmap ti a).1.totalRiskScore } :=
  calc_snd_update vmap ti a h

/-- C9 witness: the frame condition at a concrete asset. -/
theorem asset_risk_frame_witness :
    ¬(resolvedVulns wVmap wAsset = [])
    ∧ (calculate_asset_risk wVmap wTi wAsset).2
      = { wAsset with riskScore := (calculate_asset_risk wVmap wTi wAsset).1.totalRiskScore } :=
  ⟨by decide, asset_risk_frame wVmap wTi wAsset (by decide)⟩

theorem calc_fst_riskScore_irrel (vmap : List (String × Vulnerability))
    (ti : List (String × ℚ)) (a : Asset) (x : ℚ) :
    (calculate_asset_risk vmap ti { a with riskScore := x }).1
      = (calculate_asset_risk vmap ti a).1 := by
  have hres : resolvedVulns vmap { a with riskScore := x } = resolvedVulns vmap a := by
    simp [resolvedVulns]
  by_cases h : resolvedVulns vmap a = []
  · simp [calculate_asset_risk, hres, h]
  · simp [calculate_asset_risk, hres, h, generate_recommendations, calculate_exposure_risk]

/-- C8: recomputing the risk of an unchanged asset / vulnerability map /
threat-intelligence map twice yields the identical `RiskCalculationResult`
— the intermediate write to the asset's `riskScore` does not change the
second result. -/
theorem asset_risk_recompute_deterministic (vmap : List (String × Vulnerability))
    (ti : List (String × ℚ)) (a : Asset) :
    (calculate_asset_risk vmap ti ((calculate_asset_risk vmap ti a).2)).1
      = (calculate_asset_risk vmap ti a).1 := by
  by_cases h : resolvedVulns vmap a = []
  · have h2 : (calculate_asset_risk vmap ti a).2 = a := by
      simp [calculate_asset_risk, h]
    rw [h2]
  · rw [calc_snd_update vmap ti a h]
    exact calc_fst_riskScore_irrel vmap ti a _

theorem sevMult_nonneg (s : RiskLevel) : 0 ≤ CVSS_MULTIPLIERS s := by
  cases s <;> norm_num [CVSS_MULTIPLIERS]

theorem vectorMult_pos (av : Option String) : 0 < vectorMult av := by
  unfold vectorMult
  split <;> norm_num

theorem threatMult_bounds (ti : List (String × ℚ)) (hti : ∀ p ∈ ti, 0 ≤ p.2 ∧ p.2 ≤ 1)
    (c : Option String) : 1 ≤ threatMult ti c ∧ threatMult ti c ≤ 3/2 := by
  cases c with
  | none => norm_num [threatMult]
  | some s =>
    by_cases hs : s = ""
    · norm_num [threatMult, hs]
    · cases hl : ti.lookup s with
      | none => norm_num [threatMult, hs, hl]
      | some q =>
        have hq1 : 0 ≤ q := (hti _ (lookup_mem hl)).1
        have hq2 : q ≤ 1 := (hti _ (lookup_mem hl)).2
        simp only [threatMult, hs, hl, if_false]
        constructor <;> linarith

theorem exploitFactor_nonneg (v : Vulnerability) :
    (0:ℚ) ≤ (if v.exploitPublic then (3:ℚ)/2 else if v.exploitAvailable then 13/10 else 1) := by
  split
  · norm_num
  · split <;> norm_num

theorem patchFactor_nonneg (v : Vulnerability) :
    (0:ℚ) ≤ (if v.patchAvailable then (7:ℚ)/10 else 1) := by
  split <;> norm_num

theorem vuln_risk_nonneg (ti : List (String × ℚ)) (hti : ∀ p ∈ ti, 0 ≤ p.2 ∧ p.2 ≤ 1)
    (v : Vulnerability) (h0 : 0 ≤ v.cvssScore) :
    0 ≤ calculate_vulnerability_risk ti v := by
  simp only [calculate_vulnerability_risk]
  refine le_min ?_ (by norm_num)
  have hbase : (0:ℚ) ≤ v.cvssScore / 10 * 100 := by positivity
  exact mul_nonneg
    (mul_nonneg
      (mul_nonneg
        (mul_nonneg (mul_nonneg hbase (sevMult_nonneg v.severity)) (exploitFactor_nonneg v))
        (patchFactor_nonneg v))
      (vectorMult_pos v.attackVector).le)
    (le_trans zero_le_one (threatMult_bounds ti hti v.cveId).1)

theorem vuln_risk_le_100 (ti : List (String × ℚ)) (v : Vulnerability) :
    calculate_vulnerability_risk ti v ≤ 100 := by
  simp only [calculate_vulnerability_risk]
  exact min_le_right _ _

/-- C3: for cvssScore in [0,10] and threat-intelligence values in [0,1], the
per-vulnerability scorer returns a value in [0,100], and the value is
monotone non-decreasing in cvssScore with all other fields held fixed. -/
theorem vuln_risk_range_and_monotone (ti : List (String × ℚ)) (v : Vulnerability)
    (c1 c2 : ℚ) (hti : ∀ p ∈ ti, 0 ≤ p.2 ∧ p.2 ≤ 1)
    (h0 : 0 ≤ v.cvssScore) (h10 : v.cvssScore ≤ 10)
    (hc1 : 0 ≤ c1) (hc12 : c1 ≤ c2) (hc2 : c2 ≤ 10) :
    (0 ≤ calculate_vulnerability_risk ti v ∧ calculate_vulnerability_risk ti v ≤ 100)
    ∧ calculate_vulnerability_risk ti { v with cvssScore := c1 }
        ≤ calculate_vulnerability_risk ti { v with cvssScore := c2 } := by
  refine ⟨⟨vuln_risk_nonneg ti hti v h0, vuln_risk_le_100 ti v⟩, ?_⟩
  simp only [calculate_vulnerability_risk]
  refine min_le_min ?_ le_rfl
  have hM : (0:ℚ) ≤ CVSS_MULTIPLIERS v.severity
      * (if v.exploitPublic then (3:ℚ)/2 else if v.exploitAvailable then 13/10 else 1)
      * (if v.patchAvailable then (7:ℚ)/10 else 1)
      * vectorMult v.attackVector
      * threatMult ti v.cveId :=
    mul_nonneg
      (mul_nonneg
        (mul_nonneg (mul_nonneg (sevMult_nonneg v.severity) (exploitFactor_nonneg v))
          (patchFactor_nonneg v))
        (vectorMult_pos v.attackVector).le)
      (le_trans zero_le_one (threatMult_bounds ti hti v.cveId).1)
  have hble : c1 / 10 * 100 ≤ c2 / 10 * 100 := by linarith
  calc c1 / 10 * 100 * CVSS_MULTIPLIERS v.severity
        * (if v.exploitPublic then (3:ℚ)/2 else if v.exploitAvailable then 13/10 else 1)
        * (if v.patchAvailable then (7:ℚ)/10 else 1)
        * vectorMult v.attackVector
        * threatMult ti v.cveId
      = c1 / 10 * 100 * (CVSS_MULTIPLIERS v.severity
        * (if v.exploitPublic then (3:ℚ)/2 else if v.exploitAvailable then 13/10 else 1)
        * (if v.patchAvailable then (7:ℚ)/10 else 1)
        * vectorMult v.attackVector
        * threatMult ti v.cveId) := by ring
    _ ≤ c2 / 10 * 100 * (CVSS_MULTIPLIERS v.severity
        * (if v.exploitPublic then (3:ℚ)/2 else if v.exploitAvailable then 13/10 else 1)
        * (if v.patchAvailable then (7:ℚ)/10 else 1)
        * vectorMult v.attackVector
        * threatMult ti v.cveId) := mul_le_mul_of_nonneg_right hble hM
    _ = c2 / 10 * 100 * CVSS_MULTIPLIERS v.severity
        * (if v.exploitPublic then (3:ℚ)/2 else if v.exploitAvailable then 13/10 else 1)
        * (if v.patchAvailable then (7:ℚ)/10 else 1)
        * vectorMult v.attackVector
        * threatMult ti v.cveId := by ring

/-- C3 witness: range and monotonicity instantiated at a concrete
vulnerability with cvss scores 3 and 7. -/
theorem vuln_risk_range_and_monotone_witness :
    ((0 ≤ calculate_vulnerability_risk wTi wVuln1 ∧ calculate_vulnerability_risk wTi wVuln1 ≤ 100)
    ∧ calculate_vulnerability_risk wTi { wVuln1 with cvssScore := 3 }
        ≤ calculate_vulnerability_risk wTi { wVuln1 with cvssScore := 7 }) :=
  vuln_risk_range_and_monotone wTi wVuln1 3 7
    (by intro p hp; simp [wTi] at hp; rw [hp]; norm_num)
    (by norm_num [wVuln1]) (by norm_num [wVuln1])
    (by norm_num) (by norm_num) (by norm_num)

theorem msCount_exploit (vmap : List (String × Vulnerability)) (ti : List (String × ℚ))
    (aid : String) (b : Asset) (vl : List Vulnerability) :
    (List.countP (fun s => s.category == msMultiStageCategory && s.affectedAssetIds == [aid])
      [(create_exploitation_scenario vmap ti b vl).1]) = if b.id = aid then 1 else 0 := by
  by_cases hid : b.id = aid <;>
    simp [create_exploitation_scenario, msMultiStageCategory, hid]

theorem msCount_breachIte (aid : String) (c : Bool) (b : Asset) (vl : List Vulnerability) :
    (List.countP (fun s => s.category == msMultiStageCategory && s.affectedAssetIds == [aid])
      (if c = true then [create_internet_breach_scenario b vl] else [])) = 0 := by
  cases c
  · simp
  · simp [create_internet_breach_scenario, msMultiStageCategory, breachCategory]

theorem msCount_scenariosForAsset (vmap : List (String × Vulnerability))
    (ti : List (String × ℚ)) (aid : String) (b : Asset) :
    ((scenariosForAsset vmap ti b).1.countP
        (fun s => s.category == msMultiStageCategory && s.affectedAssetIds == [aid]))
      = if 2 ≤ ((resolvedVulns vmap b).filter
            (fun v => v.severity == RiskLevel.critical)).length ∧ b.id = aid
        then 1 else 0 := by
  by_cases hres : resolvedVulns vmap b = []
  · have hcrit0 : ((resolvedVulns vmap b).filter
        (fun v => v.severity == RiskLevel.critical)) = [] := by
      rw [hres]; rfl
    simp [scenariosForAsset, hres, hcrit0]
  · by_cases hc : 2 ≤ ((resolvedVulns vmap b).filter
        (fun v => v.severity == RiskLevel.critical)).length
    · simp only [scenariosForAsset, if_neg hres, if_pos hc, List.countP_append]
      rw [msCount_breachIte, msCount_exploit]
      by_cases hid : b.id = aid
      · rw [if_pos hid, if_pos ⟨hc, hid⟩]
      · rw [if_neg hid, if_neg (fun hx => hid hx.2)]
    · simp only [scenariosForAsset, if_neg hres, if_neg hc, List.countP_append]
      rw [msCount_breachIte]
      rw [if_neg (fun hx => hc hx.1)]
      simp

theorem msCount_flatten_zero (vmap : List (String × Vulnerability))
    (ti : List (String × ℚ)) (aid : String) (l : List Asset)
    (hall : ∀ b ∈ l, b.id ≠ aid) :
    ((l.map (fun b => (scenariosForAsset vmap ti b).1)).flatten.countP
        (fun s => s.category == msMultiStageCategory && s.affectedAssetIds == [aid])) = 0 := by
  induction l with
  | nil => simp
  | cons b t ih =>
    simp only [List.map_cons, List.flatten_cons, List.countP_append]
    rw [msCount_scenariosForAsset]
    rw [if_neg (fun hx => hall b (List.mem_cons_self b t) hx.2)]
    rw [ih (fun c hc => hall c (List.mem_cons_of_mem _ hc))]

theorem msCount_flatten_one (vmap : List (String × Vulnerability))
    (ti : List (String × ℚ)) (a : Asset) (l : List Asset)
    (hnd : (l.map Asset.id).Nodup) (ha : a ∈ l)
    (hcrit : 2 ≤ ((resolvedVulns vmap a).filter
        (fun v => v.severity == RiskLevel.critical)).length) :
    ((l.map (fun b => (scenariosForAsset vmap ti b).1)).flatten.countP
        (fun s => s.category == msMultiStageCategory && s.affectedAssetIds == [a.id])) = 1 := by
  induction l with
  | nil => cases ha
  | cons b t ih =>
    simp only [List.map_cons, List.flatten_cons, List.countP_append]
    simp only [List.map_cons, List.nodup_cons] at hnd
    rcases List.mem_cons.mp ha with heq | hat
    · subst heq
      rw [msCount_scenariosForAsset, if_pos ⟨hcrit, rfl⟩]
      have hz : ∀ c ∈ t, c.id ≠ a.id := by
        intro c hc he
        exact hnd.1 (he ▸ List.mem_map_of_mem Asset.id hc)
      rw [msCount_flatten_zero vmap ti a.id t hz]
    · have hbid : b.id ≠ a.id := by
        intro he
        exact hnd.1 (he ▸ List.mem_map_of_mem Asset.id hat)
      rw [msCount_scenariosForAsset, if_neg (fun hx => hbid hx.2)]
      rw [ih hnd.2 hat]

theorem lateral_mem_category (assets : List Asset) (s : RiskScenario)
    (hs : s ∈ identify_lateral_movement assets) : s.category = lateralCategory := by
  unfold identify_lateral_movement at hs
  rw [List.mem_filterMap] at hs
  obtain ⟨loc, _, hsome⟩ := hs
  dsimp only at hsome
  split at hsome
  · cases hsome
  · split at hsome
    · cases hsome
      rfl
    · cases hsome

theorem scenariosForAsset_mem (vmap : List (String × Vulnerability)) (ti : List (String × ℚ))
    (b : Asset) (s : RiskScenario) (hs : s ∈ (scenariosForAsset vmap ti b).1)
    (hcat : s.category = msMultiStageCategory) :
    2 ≤ ((resolvedVulns vmap b).filter (fun v => v.severity == RiskLevel.critical)).length
    ∧ s = (create_exploitation_scenario vmap ti b
        ((resolvedVulns vmap b).filter (fun v => v.severity == RiskLevel.critical))).1 := by
  by_cases hres : resolvedVulns vmap b = []
  · simp [scenariosForAsset, hres] at hs
  · by_cases hc : 2 ≤ ((resolvedVulns vmap b).filter
        (fun v => v.severity == RiskLevel.critical)).length
    · refine ⟨hc, ?_⟩
      simp only [scenariosForAsset, if_neg hres, if_pos hc] at hs
      rcases List.mem_append.mp hs with h1 | h2
      · exact List.mem_singleton.mp h1
      · split at h2
        · rcases List.mem_singleton.mp h2 with rfl
          dsimp only [create_internet_breach_scenario] at hcat
          exact absurd hcat (by decide)
        · cases h2
    · exfalso
      simp only [scenariosForAsset, if_neg hres, if_neg hc] at hs
      rcases List.mem_append.mp hs with h1 | h2
      · cases h1
      · split at h2
        · rcases List.mem_singleton.mp h2 with rfl
          dsimp only [create_internet_breach_scenario] at hcat
          exact absurd hcat (by decide)
        · cases h2

/-- C5: for every asset with at least 2 resolvable Critical-severity
vulnerabilities, one scenario-correlation pass emits exactly one
multi-stage-exploitation scenario for that asset; it has severity
Critical, likelihood Likely, impact Catastrophic,
businessRiskScore = min(asset total risk score × 1.2, 100),
detectionCoverage = 60, and its correlatedVulnerabilityIds contain every
Critical vulnerability id of the asset. -/
theorem multi_stage_scenario_exactly_one (e : Engine) (a : Asset)
    (hnd : (e.assets.map Asset.id).Nodup) (ha : a ∈ e.assets)
    (hcrit : 2 ≤ ((resolvedVulns e.vulns a).filter
        (fun v => v.severity == RiskLevel.critical)).length) :
    ((generate_risk_scenarios e).1.countP
        (fun s => s.category == msMultiStageCategory && s.affectedAssetIds == [a.id])) = 1
    ∧ ∀ s ∈ (generate_risk_scenarios e).1,
        s.category = msMultiStageCategory → s.affectedAssetIds = [a.id] →
          s.severity = RiskLevel.critical ∧ s.likelihood = "Likely" ∧ s.impact = "Catastrophic"
          ∧ s.businessRiskScore
              = min ((calculate_asset_risk e.vulns e.threatIntel a).1.totalRiskScore * (12/10)) 100
          ∧ s.detectionCoverage = 60
          ∧ ∀ v ∈ (resolvedVulns e.vulns a).filter (fun v => v.severity == RiskLevel.critical),
              v.id ∈ s.correlatedVulnerabilityIds := by
  constructor
  · unfold generate_risk_scenarios
    dsimp only
    rw [List.countP_append, List.map_map]
    have hcomp : ((fun p : List RiskScenario × Asset => p.1) ∘ scenariosForAsset e.vulns e.threatIntel)
        = fun b => (scenariosForAsset e.vulns e.threatIntel b).1 := rfl
    rw [hcomp, msCount_flatten_one e.vulns e.threatIntel a e.assets hnd ha hcrit]
    rw [List.countP_eq_zero.mpr ?_]
    · intro s hsl
      have hc := lateral_mem_category _ s hsl
      simp [hc, lateralCategory, msMultiStageCategory]
  · intro s hs hcat haff
    unfold generate_risk_scenarios at hs
    dsimp only at hs
    rcases List.mem_append.mp hs with hfl | hlat
    · rw [List.map_map] at hfl
      rw [List.mem_flatten] at hfl
      obtain ⟨lst, hlst, hsl⟩ := hfl
      rw [List.mem_map] at hlst
      obtain ⟨b, hb, rfl⟩ := hlst
      obtain ⟨hcb, rfl⟩ := scenariosForAsset_mem e.vulns e.threatIntel b _ hsl hcat
      have hbid : b.id = a.id := by
        have haff' : [b.id] = [a.id] := haff
        injection haff'
      have hba : b = a := List.inj_on_of_nodup_map hnd hb ha hbid
      subst hba
      refine ⟨rfl, rfl, rfl, rfl, rfl, ?_⟩
      intro v hv
      exact List.mem_map_of_mem (fun v => v.id) hv
    · exact absurd (hcat ▸ lateral_mem_category _ s hlat) (by decide)

/-- C5 witness: a concrete engine with one asset carrying two critical
vulnerabilities. -/
theorem multi_stage_scenario_exactly_one_witness :
    ((wEngine.assets.map Asset.id).Nodup ∧ wAsset ∈ wEngine.assets
      ∧ 2 ≤ ((resolvedVulns wEngine.vulns wAsset).filter
          (fun v => v.severity == RiskLevel.critical)).length)
    ∧ ((generate_risk_scenarios wEngine).1.countP
        (fun s => s.category == msMultiStageCategory && s.affectedAssetIds == [wAsset.id])) = 1 := by
  refine ⟨⟨by decide, by decide, by decide⟩, ?_⟩
  exact (multi_stage_scenario_exactly_one wEngine wAsset (by decide) (by decide) (by decide)).1

theorem meanR_nonneg (l : List ℝ) (h : ∀ x ∈ l, 0 ≤ x) : 0 ≤ meanR l :=
  div_nonneg (List.sum_nonneg h) (Nat.cast_nonneg _)

theorem meanR_le_of_le (l : List ℝ) (C : ℝ) (hC : 0 ≤ C) (h : ∀ x ∈ l, x ≤ C) :
    meanR l ≤ C := by
  rcases eq_or_ne l [] with rfl | hne
  · simpa [meanR] using hC
  · have hlen : 0 < (l.length : ℝ) := by
      have := List.length_pos.mpr hne
      exact_mod_cast this
    rw [meanR, div_le_iff hlen]
    have := List.sum_le_card_nsmul l C h
    rwa [nsmul_eq_mul, mul_comm] at this

theorem varR_nonneg (l : List ℝ) : 0 ≤ varR l := by
  refine meanR_nonneg _ ?_
  intro x hx
  rw [List.mem_map] at hx
  obtain ⟨y, _, rfl⟩ := hx
  positivity

theorem stdR_nonneg (l : List ℝ) : 0 ≤ stdR l := Real.sqrt_nonneg _

theorem foldl_max_init_le {α : Type} [LinearOrder α] (t : α) (ts : List α) :
    t ≤ ts.foldl max t := by
  induction ts generalizing t with
  | nil => exact le_refl t
  | cons y ys ih => exact le_trans (le_max_left t y) (ih (max t y))

theorem model_agreement_bounds (preds : List ℝ) (hp : ∀ x ∈ preds, 0 ≤ x) :
    0 ≤ model_agreement preds ∧ model_agreement preds ≤ 1 := by
  simp only [model_agreement]
  split
  · norm_num
  · split
    · norm_num
    · next hmean0 =>
      have hmean : 0 ≤ meanR preds := meanR_nonneg _ hp
      have hcv : 0 ≤ stdR preds / meanR preds := div_nonneg (stdR_nonneg _) hmean
      constructor
      · have h1 : min (stdR preds / meanR preds) 1 ≤ 1 := min_le_right _ _
        linarith
      · have h0 : 0 ≤ min (stdR preds / meanR preds) 1 := le_min hcv (by norm_num)
        linarith

theorem model_agreement_zero_mean (preds : List ℝ) (h2 : ¬preds.length < 2)
    (hm : meanR preds = 0) : model_agreement preds = 1 := by
  simp only [model_agreement]
  rw [if_neg h2, if_pos hm]

theorem bayesian_bounds (f : Features) (h1 : 0 ≤ f.cvssMean) (h2 : 0 ≤ f.exploitRatio)
    (h3 : 0 ≤ f.assetCriticality) :
    0 ≤ bayesian_predict f ∧ bayesian_predict f ≤ 100 := by
  unfold bayesian_predict
  refine ⟨le_min ?_ (by norm_num), min_le_right _ _⟩
  have ha : (0:ℝ) ≤ f.cvssMean * 10 := by linarith
  have hb : (0:ℝ) ≤ 1 + f.exploitRatio * (1/2) := by linarith
  have hc : (0:ℝ) ≤ 1/2 + f.assetCriticality / 10 := by linarith
  exact mul_nonneg (mul_nonneg ha hb) hc

theorem gradient_boosting_bounds (f : Features) (h3 : 0 ≤ f.assetCriticality) :
    0 ≤ gradient_boosting_predict f ∧ gradient_boosting_predict f ≤ 100 := by
  unfold gradient_boosting_predict
  refine ⟨le_min ?_ (by norm_num), min_le_right _ _⟩
  have ha : (0:ℝ) ≤ (f.vulnCountCritical : ℝ) * 28 + (f.vulnCountHigh : ℝ) * 16
      + (f.activelyExploitedCount : ℝ) * 20 := by positivity
  have hc : (0:ℝ) ≤ 1/2 + f.assetCriticality / 10 := by linarith
  exact mul_nonneg ha hc

theorem neural_network_bounds (f : Features) (h1 : 0 ≤ f.cvssMax) (h2 : 0 ≤ f.exploitRatio)
    (h3 : 0 ≤ f.assetCriticality) (h4 : 0 ≤ f.assetExposed) :
    0 ≤ neural_network_predict f ∧ neural_network_predict f ≤ 100 := by
  unfold neural_network_predict
  refine ⟨le_min (by nlinarith) (by norm_num), min_le_right _ _⟩

theorem markov_bounds (f : Features) (h1 : 0 ≤ f.cvssMean) (h2 : 0 ≤ f.exploitRatio) :
    0 ≤ markov_predict f ∧ markov_predict f ≤ 100 := by
  unfold markov_predict
  refine ⟨le_min ?_ (by norm_num), min_le_right _ _⟩
  have ha : (0:ℝ) ≤ f.cvssMean * 10 := by linarith
  have hb : (0:ℝ) ≤ 1 + f.exploitRatio * (3/10) := by linarith
  exact mul_nonneg ha hb

theorem rules_bounds (f : Features) (h3 : 0 ≤ f.assetCriticality) :
    0 ≤ rules_based_prediction f ∧ rules_based_prediction f ≤ 100 := by
  have h0 : (0:ℝ) ≤ (f.vulnCountCritical : ℝ) * 30 + (f.vulnCountHigh : ℝ) * 15
      + (f.vulnCountMedium : ℝ) * 7 + (f.vulnCountLow : ℝ) * 2 := by positivity
  have hm : (0:ℝ) ≤ 1/2 + f.assetCriticality / 10 * (3/2) := by linarith
  unfold rules_based_prediction
  refine ⟨?_, min_le_right _ _⟩
  split
  · split <;> refine le_min ?_ (by norm_num) <;> nlinarith [mul_nonneg h0 hm]
  · split
    · split <;> refine le_min ?_ (by norm_num) <;> nlinarith [mul_nonneg h0 hm]
    · split
      · split <;> refine le_min ?_ (by norm_num) <;> nlinarith [mul_nonneg h0 hm]
      · split <;> refine le_min ?_ (by norm_num) <;> nlinarith [mul_nonneg h0 hm]

theorem maxR_nonneg (l : List ℝ) (h : ∀ x ∈ l, 0 ≤ x) : 0 ≤ maxR l := by
  cases l with
  | nil => simp [maxR]
  | cons x xs =>
    have hx : 0 ≤ x := h x (List.mem_cons_self _ _)
    simpa [maxR] using le_trans hx (foldl_max_init_le x xs)

theorem critVal_pos (c : AssetCriticality) : 0 < critVal c := by
  cases c <;> norm_num [critVal]

theorem extract_features_nonneg (asset : Asset) (vulns : List Vulnerability)
    (hcvss : ∀ v ∈ vulns, 0 ≤ v.cvssScore) :
    0 ≤ (extract_features asset vulns).cvssMean
    ∧ 0 ≤ (extract_features asset vulns).cvssMax
    ∧ 0 ≤ (extract_features asset vulns).exploitRatio
    ∧ 0 ≤ (extract_features asset vulns).assetCriticality
    ∧ 0 ≤ (extract_features asset vulns).assetExposed
    ∧ 0 ≤ (extract_features asset vulns).severityVariance := by
  have hmem : ∀ x ∈ vulns.map (fun v => ((v.cvssScore : ℝ))), 0 ≤ x := by
    intro x hx
    rw [List.mem_map] at hx
    obtain ⟨v, hv, rfl⟩ := hx
    exact_mod_cast hcvss v hv
  refine ⟨meanR_nonneg _ hmem, maxR_nonneg _ hmem, ?_, ?_, ?_, varR_nonneg _⟩
  · exact div_nonneg (Nat.cast_nonneg _) (Nat.cast_nonneg _)
  · exact (critVal_pos asset.criticality).le
  · rw [show (extract_features asset vulns).assetExposed
        = (if asset.exposedToInternet = true then (1:ℝ) else 0) from rfl]
    split <;> norm_num

theorem ensemble_predictions_bounds (asset : Asset) (vulns : List Vulnerability)
    (hcvss : ∀ v ∈ vulns, 0 ≤ v.cvssScore) :
    ∀ p ∈ ensemble_predictions (extract_features asset vulns), 0 ≤ p ∧ p ≤ 100 := by
  obtain ⟨h1, h2, h3, h4, h5, h6⟩ := extract_features_nonneg asset vulns hcvss
  intro p hp
  simp only [ensemble_predictions, List.mem_cons, List.not_mem_nil, or_false] at hp
  rcases hp with rfl | rfl | rfl | rfl | rfl
  · exact bayesian_bounds _ h1 h3 h4
  · exact gradient_boosting_bounds _ h4
  · exact neural_network_bounds _ h2 h3 h4 h5
  · exact markov_bounds _ h1 h3
  · exact rules_bounds _ h4

theorem stacking_bounds (p1 p2 p3 p4 p5 : ℝ)
    (h1 : 0 ≤ p1 ∧ p1 ≤ 100) (h2 : 0 ≤ p2 ∧ p2 ≤ 100) (h3 : 0 ≤ p3 ∧ p3 ≤ 100)
    (h4 : 0 ≤ p4 ∧ p4 ≤ 100) (h5 : 0 ≤ p5 ∧ p5 ≤ 100) :
    0 ≤ stacking_predict [p1, p2, p3, p4, p5]
    ∧ stacking_predict [p1, p2, p3, p4, p5] ≤ 100 := by
  simp only [stacking_predict, List.zip_cons_cons, List.zip_nil_right, List.map_cons,
    List.map_nil, List.sum_cons, List.sum_nil]
  constructor
  · nlinarith [h1.1, h2.1, h3.1, h4.1, h5.1]
  · nlinarith [h1.2, h2.2, h3.2, h4.2, h5.2]

theorem quantify_uncertainty_bounds (preds : List ℝ) (f : Features) :
    0 ≤ quantify_uncertainty preds f ∧ quantify_uncertainty preds f ≤ 1 := by
  simp only [quantify_uncertainty]
  refine ⟨le_min ?_ (by norm_num), min_le_right _ _⟩
  have h1 : 0 ≤ stdR preds / 100 := div_nonneg (stdR_nonneg _) (by norm_num)
  have ha : (0:ℝ) ≤ if f.vulnAgeMean = 0 then (2:ℝ)/100 else 0 := by split <;> norm_num
  have hb : (0:ℝ) ≤ if 6/10 < f.assetPatchLevel then (1:ℝ)/100 else 0 := by split <;> norm_num
  have hc : (0:ℝ) ≤ if f.vulnCountTotal < 3 then (3:ℝ)/100 else 0 := by split <;> norm_num
  linarith

theorem calc_confidence_bounds (agreement uncertainty : ℝ) (n : ℕ) (f : Features)
    (hag : 0 ≤ agreement) (hun : uncertainty ≤ 1) :
    0 ≤ calc_confidence agreement uncertainty n f
    ∧ calc_confidence agreement uncertainty n f ≤ 1 := by
  have hc1 : 0 ≤ agreement * (1 - uncertainty) := mul_nonneg hag (by linarith)
  simp only [calc_confidence]
  refine ⟨le_min ?_ (by norm_num), min_le_right _ _⟩
  repeat' split
  all_goals linarith [hc1]

theorem predict_interval_bounds (point : ℝ) (f : Features)
    (hp : 0 ≤ point) (hpt : point ≤ 100) (hv : 0 ≤ f.severityVariance) :
    (0 ≤ (predict_interval point f).1 ∧ (predict_interval point f).1 ≤ 100)
    ∧ (0 ≤ (predict_interval point f).2 ∧ (predict_interval point f).2 ≤ 100) := by
  simp only [predict_interval]
  have hmargin : (0:ℝ) ≤ f.severityVariance * (2576/1000) := by linarith
  refine ⟨⟨le_max_left _ _, max_le (by norm_num) (by linarith)⟩,
    ⟨le_min (by norm_num) (by linarith), min_le_left _ _⟩⟩

theorem correlate_with_history_bounds (score : ℝ) (h : ℕ) (hs : 0 ≤ score) :
    0 ≤ correlate_with_history score h ∧ correlate_with_history score h ≤ 100 := by
  unfold correlate_with_history
  refine ⟨le_min ?_ (by norm_num), min_le_right _ _⟩
  split <;> linarith

theorem categorize_mem (s c u : ℝ) :
    categorize_risk_ultra_precise s c u
      ∈ (["Critical", "High", "Medium", "Low", "Informational"] : List String) := by
  unfold categorize_risk_ultra_precise
  repeat' split
  all_goals simp

theorem wvr_aux (l : List ℚ) (h : ∀ s ∈ l, 0 ≤ s) :
    0 ≤ (match l with
      | [] => (0:ℚ)
      | [s] => s
      | s :: rest =>
        s * (6/10) + ((rest.map (fun q => q * ((4:ℚ)/10 / (rest.length : ℚ)))).sum)) := by
  match l with
  | [] => norm_num
  | [s] =>
    show (0:ℚ) ≤ s
    exact h s (List.mem_cons_self _ _)
  | s :: t :: rest =>
    show (0:ℚ) ≤ s * (6/10)
      + (((t :: rest).map (fun q => q * ((4:ℚ)/10 / (((t :: rest).length : ℚ))))).sum)
    have hs : 0 ≤ s := h s (List.mem_cons_self _ _)
    have hsum : 0 ≤ ((t :: rest).map (fun q => q * ((4:ℚ)/10 / (((t :: rest).length : ℚ))))).sum := by
      apply List.sum_nonneg
      intro x hx
      rw [List.mem_map] at hx
      obtain ⟨q, hq, rfl⟩ := hx
      exact mul_nonneg (h q (List.mem_cons_of_mem _ hq))
        (div_nonneg (by norm_num) (Nat.cast_nonneg _))
    linarith

theorem weightedVulnRisk_nonneg (scores : List ℚ) (h : ∀ s ∈ scores, 0 ≤ s) :
    0 ≤ weightedVulnRisk scores := by
  have hperm := List.perm_insertionSort (fun a b : ℚ => b ≤ a) scores
  exact wvr_aux _ (fun s hs => h s (hperm.mem_iff.mp hs))

theorem exposure_nonneg (a : Asset) : 0 ≤ calculate_exposure_risk a := by
  unfold calculate_exposure_risk
  refine le_min ?_ (by norm_num)
  have h1 : 0 ≤ patchScores a.patchLevel := by unfold patchScores; split <;> norm_num
  have h2 : 0 ≤ avScores a.antivirusStatus := by unfold avScores; split <;> norm_num
  have h3 : (0:ℚ) ≤ if a.exposedToInternet then (30:ℚ) else 0 := by split <;> norm_num
  have h4 : (0:ℚ) ≤ if a.containsSensitiveData then (25:ℚ) else 0 := by split <;> norm_num
  have h5 : (0:ℚ) ≤ if a.firewallEnabled then (0:ℚ) else 15 := by split <;> norm_num
  linarith

theorem threatScores_nonneg (ti : List (String × ℚ)) (hti : ∀ p ∈ ti, 0 ≤ p.2 ∧ p.2 ≤ 1)
    (vulns : List Vulnerability) : ∀ q ∈ threatScoresOf ti vulns, 0 ≤ q := by
  intro q hq
  unfold threatScoresOf at hq
  rw [List.mem_filterMap] at hq
  obtain ⟨v, _, hfq⟩ := hq
  cases hcv : v.cveId with
  | none => rw [hcv] at hfq; cases hfq
  | some c =>
    rw [hcv] at hfq
    dsimp only at hfq
    split at hfq
    · cases hfq
    · exact (hti _ (lookup_mem hfq)).1

theorem threat_factor_ge_one (ti : List (String × ℚ)) (hti : ∀ p ∈ ti, 0 ≤ p.2 ∧ p.2 ≤ 1)
    (vulns : List Vulnerability) : 1 ≤ calculate_threat_factor ti vulns := by
  unfold calculate_threat_factor
  split
  · exact le_refl 1
  · next t ts heq =>
    have ht : 0 ≤ t := threatScores_nonneg ti hti vulns t (by
      rw [heq]; exact List.mem_cons_self _ _)
    have := foldl_max_init_le t ts
    linarith

theorem resolved_mem (vmap : List (String × Vulnerability)) (a : Asset) (v : Vulnerability)
    (hv : v ∈ resolvedVulns vmap a) : ∃ k, (k, v) ∈ vmap := by
  unfold resolvedVulns at hv
  rw [List.mem_filterMap] at hv
  obtain ⟨vid, _, hl⟩ := hv
  exact ⟨vid, lookup_mem hl⟩

theorem asset_total_bounds (vmap : List (String × Vulnerability)) (ti : List (String × ℚ))
    (a : Asset) (hvmap : ∀ p ∈ vmap, 0 ≤ p.2.cvssScore ∧ p.2.cvssScore ≤ 10)
    (hti : ∀ p ∈ ti, 0 ≤ p.2 ∧ p.2 ≤ 1) :
    0 ≤ (calculate_asset_risk vmap ti a).1.totalRiskScore
    ∧ (calculate_asset_risk vmap ti a).1.totalRiskScore ≤ 100 := by
  by_cases h : resolvedVulns vmap a = []
  · simp [calculate_asset_risk, h]
  · have hvr : 0 ≤ weightedVulnRisk ((resolvedVulns vmap a).map (calculate_vulnerability_risk ti)) := by
      apply weightedVulnRisk_nonneg
      intro s hs
      rw [List.mem_map] at hs
      obtain ⟨v, hv, rfl⟩ := hs
      obtain ⟨k, hk⟩ := resolved_mem vmap a v hv
      exact vuln_risk_nonneg ti hti v (hvmap _ hk).1
    have her : 0 ≤ calculate_exposure_risk a := exposure_nonneg a
    have hcm : 0 < CRITICALITY_MULTIPLIERS a.criticality := by
      cases a.criticality <;> norm_num [CRITICALITY_MULTIPLIERS]
    have htf : 1 ≤ calculate_threat_factor ti (resolvedVulns vmap a) :=
      threat_factor_ge_one ti hti (resolvedVulns vmap a)
    simp only [calculate_asset_risk, if_neg h]
    constructor
    · refine le_min (mul_nonneg (div_nonneg ?_ (by norm_num)) hcm.le) (by norm_num)
      nlinarith [mul_nonneg hvr hcm.le, mul_nonneg hvr (le_trans zero_le_one htf)]
    · exact min_le_right _ _

theorem filterMap_none_nil {α β : Type} (f : α → Option β) (l : List α)
    (h : ∀ x ∈ l, f x = none) : l.filterMap f = [] := by
  induction l with
  | nil => rfl
  | cons x t ih =>
    rw [List.filterMap_cons, h x (List.mem_cons_self _ _)]
    exact ih (fun y hy => h y (List.mem_cons_of_mem _ hy))

theorem ages_empty (asset : Asset) (vulns : List Vulnerability)
    (h : ∀ v ∈ vulns, v.publishedAgeDays = none) :
    (extract_features asset vulns).vulnAgeMean = 0 := by
  simp only [extract_features]
  rw [filterMap_none_nil _ vulns (fun v hv => by rw [h v hv]; rfl)]
  simp

theorem ultra_bounds_aux (asset : Asset) (vulns : List Vulnerability)
    (hist : Option ℕ) (gt : Option ℝ) (hcvss : ∀ v ∈ vulns, 0 ≤ v.cvssScore) :
    (0 ≤ (calculate_ultra_precise_risk asset vulns hist gt).score
      ∧ (calculate_ultra_precise_risk asset vulns hist gt).score ≤ 100)
    ∧ (0 ≤ (calculate_ultra_precise_risk asset vulns hist gt).confidence
      ∧ (calculate_ultra_precise_risk asset vulns hist gt).confidence ≤ 1)
    ∧ (0 ≤ (calculate_ultra_precise_risk asset vulns hist gt).uncertainty
      ∧ (calculate_ultra_precise_risk asset vulns hist gt).uncertainty ≤ 1)
    ∧ (0 ≤ (calculate_ultra_precise_risk asset vulns hist gt).confidenceInterval.1
      ∧ (calculate_ultra_precise_risk asset vulns hist gt).confidenceInterval.1 ≤ 100)
    ∧ (0 ≤ (calculate_ultra_precise_risk asset vulns hist gt).confidenceInterval.2
      ∧ (calculate_ultra_precise_risk asset vulns hist gt).confidenceInterval.2 ≤ 100)
    ∧ (0 ≤ (calculate_ultra_precise_risk asset vulns hist gt).modelAgreement
      ∧ (calculate_ultra_precise_risk asset vulns hist gt).modelAgreement ≤ 1) := by
  by_cases hv : vulns = []
  · subst hv
    norm_num [calculate_ultra_precise_risk, zero_risk_score]
  · have hpb : ∀ p ∈ ensemble_predictions (extract_features asset vulns), 0 ≤ p ∧ p ≤ 100 :=
      ensemble_predictions_bounds asset vulns hcvss
    have hagb := model_agreement_bounds (ensemble_predictions (extract_features asset vulns))
      (fun x hx => (hpb x hx).1)
    by_cases hlow : model_agreement (ensemble_predictions (extract_features asset vulns)) < 9/10
    · have heq : calculate_ultra_precise_risk asset vulns hist gt
          = low_confidence_score (ensemble_predictions (extract_features asset vulns))
              (model_agreement (ensemble_predictions (extract_features asset vulns))) := by
        simp only [calculate_ultra_precise_risk]
        rw [if_neg hv, if_pos hlow]
      rw [heq]
      simp only [low_confidence_score]
      refine ⟨⟨meanR_nonneg _ (fun x hx => (hpb x hx).1),
        meanR_le_of_le _ 100 (by norm_num) (fun x hx => (hpb x hx).2)⟩,
        hagb, by norm_num, by norm_num, by norm_num, hagb⟩
    · have hbase : 0 ≤ stacking_predict (ensemble_predictions (extract_features asset vulns))
          ∧ stacking_predict (ensemble_predictions (extract_features asset vulns)) ≤ 100 := by
        refine stacking_bounds _ _ _ _ _
          (hpb _ ?_) (hpb _ ?_) (hpb _ ?_) (hpb _ ?_) (hpb _ ?_) <;>
          simp [ensemble_predictions]
      have hvarf : 0 ≤ (extract_features asset vulns).severityVariance :=
        (extract_features_nonneg asset vulns hcvss).2.2.2.2.2
      have hunc := quantify_uncertainty_bounds (ensemble_predictions (extract_features asset vulns))
        (extract_features asset vulns)
      have hconf := calc_confidence_bounds
        (model_agreement (ensemble_predictions (extract_features asset vulns)))
        (quantify_uncertainty (ensemble_predictions (extract_features asset vulns))
          (extract_features asset vulns))
        vulns.length (extract_features asset vulns) hagb.1 hunc.2
      have hci := predict_interval_bounds
        (stacking_predict (ensemble_predictions (extract_features asset vulns)))
        (extract_features asset vulns) hbase.1 hbase.2 hvarf
      have heq : calculate_ultra_precise_risk asset vulns hist gt
          = { score :=
                match hist with
                | none => calibrate (stacking_predict (ensemble_predictions (extract_features asset vulns)))
                | some h => correlate_with_history
                    (calibrate (stacking_predict (ensemble_predictions (extract_features asset vulns)))) h
              confidence := calc_confidence
                (model_agreement (ensemble_predictions (extract_features asset vulns)))
                (quantify_uncertainty (ensemble_predictions (extract_features asset vulns))
                  (extract_features asset vulns))
                vulns.length (extract_features asset vulns)
              uncertainty := quantify_uncertainty
                (ensemble_predictions (extract_features asset vulns)) (extract_features asset vulns)
              confidenceInterval := predict_interval
                (stacking_predict (ensemble_predictions (extract_features asset vulns)))
                (extract_features asset vulns)
              riskLevel := categorize_risk_ultra_precise
                (match hist with
                  | none => calibrate (stacking_predict (ensemble_predictions (extract_features asset vulns)))
                  | some h => correlate_with_history
                      (calibrate (stacking_predict (ensemble_predictions (extract_features asset vulns)))) h)
                (calc_confidence
                  (model_agreement (ensemble_predictions (extract_features asset vulns)))
                  (quantify_uncertainty (ensemble_predictions (extract_features asset vulns))
                    (extract_features asset vulns))
                  vulns.length (extract_features asset vulns))
                (quantify_uncertainty (ensemble_predictions (extract_features asset vulns))
                  (extract_features asset vulns))
              contributingFactors := explain_risk_factors (extract_features asset vulns)
              modelAgreement := model_agreement (ensemble_predictions (extract_features asset vulns))
              validationPassed :=
                match gt with
                | none => true
                | some g => validate_against_ground_truth g (predict_interval
                    (stacking_predict (ensemble_predictions (extract_features asset vulns)))
                    (extract_features asset vulns))
              precisionLevel :=
                if 95/100 ≤ calc_confidence
                    (model_agreement (ensemble_predictions (extract_features asset vulns)))
                    (quantify_uncertainty (ensemble_predictions (extract_features asset vulns))
                      (extract_features asset vulns))
                    vulns.length (extract_features asset vulns)
                  ∧ 9/10 ≤ model_agreement (ensemble_predictions (extract_features asset vulns))
                  ∧ quantify_uncertainty (ensemble_predictions (extract_features asset vulns))
                      (extract_features asset vulns) ≤ 5/100
                then "ultra_high" else "standard" } := by
        simp only [calculate_ultra_precise_risk]
        rw [if_neg hv, if_neg hlow]
      rw [heq]
      refine ⟨?_, hconf, hunc, hci.1, hci.2, hagb⟩
      cases hist with
      | none => exact hbase
      | some h =>
        exact correlate_with_history_bounds _ h hbase.1

/-- C6: whenever the five strategy estimates disagree — model agreement
`1 − min(coefficientOfVariation, 1)` below 0.90 — and the asset has at
least one vulnerability, the ensemble engine returns early with
score = mean of the estimates, confidence = the agreement,
uncertainty = 0.5, confidence interval (0, 100), precision tier "low" and
validationPassed = false, instead of raising an error. -/
theorem ensemble_low_agreement_early (asset : Asset) (vulns : List Vulnerability)
    (hist : Option ℕ) (gt : Option ℝ) (hv : vulns ≠ [])
    (hlow : model_agreement (ensemble_predictions (extract_features asset vulns)) < 9/10) :
    (calculate_ultra_precise_risk asset vulns hist gt).score
        = meanR (ensemble_predictions (extract_features asset vulns))
    ∧ (calculate_ultra_precise_risk asset vulns hist gt).confidence
        = model_agreement (ensemble_predictions (extract_features asset vulns))
    ∧ (calculate_ultra_precise_risk asset vulns hist gt).uncertainty = 1/2
    ∧ (calculate_ultra_precise_risk asset vulns hist gt).confidenceInterval = (0, 100)
    ∧ (calculate_ultra_precise_risk asset vulns hist gt).precisionLevel = "low"
    ∧ (calculate_ultra_precise_risk asset vulns hist gt).validationPassed = false := by
  have heq : calculate_ultra_precise_risk asset vulns hist gt
      = low_confidence_score (ensemble_predictions (extract_features asset vulns))
          (model_agreement (ensemble_predictions (extract_features asset vulns))) := by
    simp only [calculate_ultra_precise_risk]
    rw [if_neg hv, if_pos hlow]
  rw [heq]
  exact ⟨rfl, rfl, rfl, rfl, rfl, rfl⟩

/-- C10: on the low-agreement early return (at least one vulnerability and
model agreement below 0.90) the returned risk level is the string
"Uncertain", which lies outside the five documented classification levels;
on every other path the risk level is one of Critical, High, Medium, Low,
Informational. -/
theorem ensemble_risk_level_classification (asset : Asset) (vulns : List Vulnerability)
    (hist : Option ℕ) (gt : Option ℝ) :
    (vulns ≠ [] ∧ model_agreement (ensemble_predictions (extract_features asset vulns)) < 9/10 →
      (calculate_ultra_precise_risk asset vulns hist gt).riskLevel = "Uncertain"
      ∧ "Uncertain" ∉ (["Critical", "High", "Medium", "Low", "Informational"] : List String))
    ∧ (vulns = [] ∨ 9/10 ≤ model_agreement (ensemble_predictions (extract_features asset vulns)) →
      (calculate_ultra_precise_risk asset vulns hist gt).riskLevel
        ∈ (["Critical", "High", "Medium", "Low", "Informational"] : List String)) := by
  constructor
  · rintro ⟨hv, hlow⟩
    constructor
    · have heq : calculate_ultra_precise_risk asset vulns hist gt
          = low_confidence_score (ensemble_predictions (extract_features asset vulns))
              (model_agreement (ensemble_predictions (extract_features asset vulns))) := by
        simp only [calculate_ultra_precise_risk]
        rw [if_neg hv, if_pos hlow]
      rw [heq]
      rfl
    · decide
  · intro hcase
    by_cases hv : vulns = []
    · have heq : calculate_ultra_precise_risk asset vulns hist gt = zero_risk_score := by
        simp only [calculate_ultra_precise_risk]
        rw [if_pos hv]
      rw [heq]
      simp [zero_risk_score]
    · have hge : 9/10 ≤ model_agreement (ensemble_predictions (extract_features asset vulns)) := by
        rcases hcase with hc | hc
        · exact absurd hc hv
        · exact hc
      have hnl : ¬(model_agreement (ensemble_predictions (extract_features asset vulns)) < 9/10) :=
        not_lt.mpr hge
      have heq : (calculate_ultra_precise_risk asset vulns hist gt).riskLevel
          = categorize_risk_ultra_precise
              (match hist with
                | none => calibrate (stacking_predict (ensemble_predictions (extract_features asset vulns)))
                | some h => correlate_with_history
                    (calibrate (stacking_predict (ensemble_predictions (extract_features asset vulns)))) h)
              (calc_confidence
                (model_agreement (ensemble_predictions (extract_features asset vulns)))
                (quantify_uncertainty (ensemble_predictions (extract_features asset vulns))
                  (extract_features asset vulns))
                vulns.length (extract_features asset vulns))
              (quantify_uncertainty (ensemble_predictions (extract_features asset vulns))
                (extract_features asset vulns)) := by
        simp only [calculate_ultra_precise_risk]
        rw [if_neg hv, if_neg hnl]
      rw [heq]
      exact categorize_mem _ _ _

theorem wvr_le_aux (l : List ℚ) (h : ∀ s ∈ l, s ≤ 100) :
    (match l with
      | [] => (0:ℚ)
      | [s] => s
      | s :: rest =>
        s * (6/10) + ((rest.map (fun q => q * ((4:ℚ)/10 / (rest.length : ℚ)))).sum)) ≤ 100 := by
  match l with
  | [] => norm_num
  | [s] =>
    show s ≤ (100:ℚ)
    exact h s (List.mem_cons_self _ _)
  | s :: t :: rest =>
    show s * (6/10)
      + (((t :: rest).map (fun q => q * ((4:ℚ)/10 / (((t :: rest).length : ℚ))))).sum) ≤ 100
    have hs : s ≤ 100 := h s (List.mem_cons_self _ _)
    have hn0 : (((t :: rest).length : ℚ)) ≠ 0 := by
      rw [List.length_cons]
      exact_mod_cast Nat.succ_ne_zero rest.length
    have hw : (0:ℚ) ≤ (4:ℚ)/10 / (((t :: rest).length : ℚ)) :=
      div_nonneg (by norm_num) (Nat.cast_nonneg _)
    have hsum : (((t :: rest).map (fun q => q * ((4:ℚ)/10 / (((t :: rest).length : ℚ))))).sum)
        ≤ ((t :: rest).map (fun q => q * ((4:ℚ)/10 / ((t :: rest).length : ℚ)))).length
          • (100 * ((4:ℚ)/10 / (((t :: rest).length : ℚ)))) := by
      apply List.sum_le_card_nsmul
      intro x hx
      rw [List.mem_map] at hx
      obtain ⟨q, hq, rfl⟩ := hx
      exact mul_le_mul_of_nonneg_right (h q (List.mem_cons_of_mem _ hq)) hw
    rw [List.length_map, nsmul_eq_mul] at hsum
    have hcalc : (((t :: rest).length : ℚ)) * (100 * ((4:ℚ)/10 / (((t :: rest).length : ℚ)))) = 40 := by
      field_simp
      ring
    rw [hcalc] at hsum
    linarith

theorem weightedVulnRisk_le_100 (scores : List ℚ) (h : ∀ s ∈ scores, s ≤ 100) :
    weightedVulnRisk scores ≤ 100 := by
  have hperm := List.perm_insertionSort (fun a b : ℚ => b ≤ a) scores
  exact wvr_le_aux _ (fun s hs => h s (hperm.mem_iff.mp hs))

theorem exposure_le_100 (a : Asset) : calculate_exposure_risk a ≤ 100 := by
  unfold calculate_exposure_risk
  exact min_le_right _ _

theorem foldl_max_le {α : Type} [LinearOrder α] (b : α) :
    ∀ (ts : List α) (t : α), t ≤ b → (∀ x ∈ ts, x ≤ b) → ts.foldl max t ≤ b := by
  intro ts
  induction ts with
  | nil => intro t ht _; exact ht
  | cons y ys ih =>
    intro t ht h
    exact ih (max t y) (max_le ht (h y (List.mem_cons_self _ _)))
      (fun x hx => h x (List.mem_cons_of_mem _ hx))

theorem threatScores_le_one (ti : List (String × ℚ)) (hti : ∀ p ∈ ti, 0 ≤ p.2 ∧ p.2 ≤ 1)
    (vulns : List Vulnerability) : ∀ q ∈ threatScoresOf ti vulns, q ≤ 1 := by
  intro q hq
  unfold threatScoresOf at hq
  rw [List.mem_filterMap] at hq
  obtain ⟨v, _, hfq⟩ := hq
  cases hcv : v.cveId with
  | none => rw [hcv] at hfq; cases hfq
  | some c =>
    rw [hcv] at hfq
    dsimp only at hfq
    split at hfq
    · cases hfq
    · exact (hti _ (lookup_mem hfq)).2

theorem threat_factor_le_two (ti : List (String × ℚ)) (hti : ∀ p ∈ ti, 0 ≤ p.2 ∧ p.2 ≤ 1)
    (vulns : List Vulnerability) : calculate_threat_factor ti vulns ≤ 2 := by
  unfold calculate_threat_factor
  split
  · norm_num
  · next t ts heq =>
    have hone : ∀ q ∈ threatScoresOf ti vulns, q ≤ 1 := threatScores_le_one ti hti vulns
    have ht : t ≤ 1 := hone t (by rw [heq]; exact List.mem_cons_self _ _)
    have hts : ∀ x ∈ ts, x ≤ 1 := fun x hx => hone x (by
      rw [heq]; exact List.mem_cons_of_mem _ hx)
    have := foldl_max_le 1 ts t ht hts
    linarith

theorem crit_mult_bounds (c : AssetCriticality) :
    1/2 ≤ CRITICALITY_MULTIPLIERS c ∧ CRITICALITY_MULTIPLIERS c ≤ 2 := by
  cases c <;> norm_num [CRITICALITY_MULTIPLIERS]

theorem asset_result_component_bounds (vmap : List (String × Vulnerability))
    (ti : List (String × ℚ)) (a : Asset)
    (hvmap : ∀ p ∈ vmap, 0 ≤ p.2.cvssScore ∧ p.2.cvssScore ≤ 10)
    (hti : ∀ p ∈ ti, 0 ≤ p.2 ∧ p.2 ≤ 1) :
    (0 ≤ (calculate_asset_risk vmap ti a).1.vulnerabilityRisk
      ∧ (calculate_asset_risk vmap ti a).1.vulnerabilityRisk ≤ 100)
    ∧ (0 ≤ (calculate_asset_risk vmap ti a).1.exposureRisk
      ∧ (calculate_asset_risk vmap ti a).1.exposureRisk ≤ 100)
    ∧ (1/2 ≤ (calculate_asset_risk vmap ti a).1.criticalityMultiplier
      ∧ (calculate_asset_risk vmap ti a).1.criticalityMultiplier ≤ 2)
    ∧ (1 ≤ (calculate_asset_risk vmap ti a).1.threatIntelligenceFactor
      ∧ (calculate_asset_risk vmap ti a).1.threatIntelligenceFactor ≤ 2) := by
  by_cases h : resolvedVulns vmap a = []
  · norm_num [calculate_asset_risk, h]
  · have hmem : ∀ s ∈ (resolvedVulns vmap a).map (calculate_vulnerability_risk ti),
        0 ≤ s ∧ s ≤ 100 := by
      intro s hs
      rw [List.mem_map] at hs
      obtain ⟨v, hv, rfl⟩ := hs
      obtain ⟨k, hk⟩ := resolved_mem vmap a v hv
      exact ⟨vuln_risk_nonneg ti hti v (hvmap _ hk).1, vuln_risk_le_100 ti v⟩
    simp only [calculate_asset_risk, if_neg h]
    exact ⟨⟨weightedVulnRisk_nonneg _ (fun s hs => (hmem s hs).1),
        weightedVulnRisk_le_100 _ (fun s hs => (hmem s hs).2)⟩,
      ⟨exposure_nonneg a, exposure_le_100 a⟩,
      crit_mult_bounds a.criticality,
      ⟨threat_factor_ge_one ti hti _, threat_factor_le_two ti hti _⟩⟩

theorem varR_const (l : List ℝ) (c : ℝ) (h : ∀ x ∈ l, x = c) : varR l = 0 := by
  rcases eq_or_ne l [] with rfl | hne
  · simp [varR, meanR]
  · have hlen0 : ((l.length : ℝ)) ≠ 0 := by
      have hpos := List.length_pos.mpr hne
      exact_mod_cast hpos.ne'
    have hsum : l.sum = (l.length : ℝ) * c := by
      have := List.sum_eq_card_nsmul l c h
      rwa [nsmul_eq_mul] at this
    have hmean : meanR l = c := by
      rw [meanR, hsum, mul_comm, mul_div_assoc, div_self hlen0, mul_one]
    rw [varR]
    have hmap : l.map (fun x => (x - meanR l)^2) = l.map (fun _ => 0) := by
      apply List.map_congr_left
      intro x hx
      rw [h x hx, hmean]
      ring
    rw [hmap, meanR]
    have hz : (l.map (fun _ => (0:ℝ))).sum = 0 := by simp
    rw [hz]
    simp

theorem severityVariance_const (asset : Asset) (vulns : List Vulnerability)
    (h : ∃ c, ∀ v ∈ vulns, v.cvssScore = c) :
    (extract_features asset vulns).severityVariance = 0 := by
  obtain ⟨c, hc⟩ := h
  show varR (vulns.map (fun v => ((v.cvssScore : ℝ)))) = 0
  apply varR_const _ ((c : ℝ))
  intro x hx
  rw [List.mem_map] at hx
  obtain ⟨v, hv, rfl⟩ := hx
  rw [hc v hv]

theorem patchCoverage_bounds (asset : Asset) (vulns : List Vulnerability) :
    0 ≤ (extract_features asset vulns).patchCoverage
    ∧ (extract_features asset vulns).patchCoverage ≤ 1 := by
  constructor
  · exact div_nonneg (Nat.cast_nonneg _) (Nat.cast_nonneg _)
  · show ((vulns.countP (fun v => v.patchAvailable) : ℝ)) / ((vulns.length : ℝ)) ≤ 1
    rcases Nat.eq_zero_or_pos vulns.length with h0 | hpos
    · rw [h0]
      norm_num
    · rw [div_le_one (by exact_mod_cast hpos)]
      exact_mod_cast List.countP_le_length _

theorem critVal_le_10 (c : AssetCriticality) : critVal c ≤ 10 := by
  cases c <;> norm_num [critVal]

theorem assetExposed_bounds (asset : Asset) (vulns : List Vulnerability) :
    0 ≤ (extract_features asset vulns).assetExposed
    ∧ (extract_features asset vulns).assetExposed ≤ 1 := by
  rw [show (extract_features asset vulns).assetExposed
      = (if asset.exposedToInternet = true then (1:ℝ) else 0) from rfl]
  split <;> norm_num

theorem explain_factors_bounds (asset : Asset) (vulns : List Vulnerability) :
    ∀ kv ∈ explain_risk_factors (extract_features asset vulns), 0 ≤ kv.2 ∧ kv.2 ≤ 100 := by
  have hcov := patchCoverage_bounds asset vulns
  have hexp := assetExposed_bounds asset vulns
  intro kv hkv
  simp only [explain_risk_factors, List.mem_cons, List.not_mem_nil, or_false] at hkv
  rcases hkv with rfl | rfl | rfl | rfl | rfl
  · exact ⟨le_min (by positivity) (by norm_num), min_le_right _ _⟩
  · exact ⟨le_min (by positivity) (by norm_num), min_le_right _ _⟩
  · constructor
    · show 0 ≤ (extract_features asset vulns).assetExposed * 100
      nlinarith [hexp.1]
    · show (extract_features asset vulns).assetExposed * 100 ≤ 100
      nlinarith [hexp.2]
  · constructor
    · show 0 ≤ (extract_features asset vulns).assetCriticality * 10
      rw [show (extract_features asset vulns).assetCriticality
          = critVal asset.criticality from rfl]
      nlinarith [critVal_pos asset.criticality]
    · show (extract_features asset vulns).assetCriticality * 10 ≤ 100
      rw [show (extract_features asset vulns).assetCriticality
          = critVal asset.criticality from rfl]
      nlinarith [critVal_le_10 asset.criticality]
  · constructor
    · show 0 ≤ (1 - (extract_features asset vulns).patchCoverage) * 100
      nlinarith [hcov.2]
    · show (1 - (extract_features asset vulns).patchCoverage) * 100 ≤ 100
      nlinarith [hcov.1]

theorem ultra_factors_bounds (asset : Asset) (vulns : List Vulnerability)
    (hist : Option ℕ) (gt : Option ℝ) (hcvss : ∀ v ∈ vulns, 0 ≤ v.cvssScore) :
    ∀ kv ∈ (calculate_ultra_precise_risk asset vulns hist gt).contributingFactors,
      0 ≤ kv.2 ∧ kv.2 ≤ 100 := by
  by_cases hv : vulns = []
  · intro kv hkv
    have heq : calculate_ultra_precise_risk asset vulns hist gt = zero_risk_score := by
      simp only [calculate_ultra_precise_risk]
      rw [if_pos hv]
    rw [heq] at hkv
    simp [zero_risk_score] at hkv
  · have hpb : ∀ p ∈ ensemble_predictions (extract_features asset vulns), 0 ≤ p ∧ p ≤ 100 :=
      ensemble_predictions_bounds asset vulns hcvss
    have hagb := model_agreement_bounds (ensemble_predictions (extract_features asset vulns))
      (fun x hx => (hpb x hx).1)
    by_cases hlow : model_agreement (ensemble_predictions (extract_features asset vulns)) < 9/10
    · have heq : calculate_ultra_precise_risk asset vulns hist gt
          = low_confidence_score (ensemble_predictions (extract_features asset vulns))
              (model_agreement (ensemble_predictions (extract_features asset vulns))) := by
        simp only [calculate_ultra_precise_risk]
        rw [if_neg hv, if_pos hlow]
      rw [heq]
      intro kv hkv
      simp only [low_confidence_score, List.mem_cons, List.not_mem_nil, or_false] at hkv
      subst hkv
      constructor
      · show (0:ℝ) ≤ 1 - model_agreement (ensemble_predictions (extract_features asset vulns))
        linarith [hagb.2]
      · show (1:ℝ) - model_agreement (ensemble_predictions (extract_features asset vulns)) ≤ 100
        linarith [hagb.1]
    · have heqf : (calculate_ultra_precise_risk asset vulns hist gt).contributingFactors
          = explain_risk_factors (extract_features asset vulns) := by
        simp only [calculate_ultra_precise_risk]
        rw [if_neg hv, if_neg hlow]
      rw [heqf]
      exact explain_factors_bounds asset vulns

/-- C7: for type/range-valid input (each cvssScore in [0,10], each
threat-intelligence value in [0,1]) every numeric value returned by the
engines lies in its documented range — the ensemble score,
confidence-interval bounds and every contributing-factor value in [0,100];
confidence, uncertainty and model agreement in [0,1]; the deterministic
result's total risk score, vulnerability risk and exposure risk in
[0,100], its criticality multiplier in [0.5,2] and its threat factor in
[1,2] — and the documented neutral defaults are substituted in the
degenerate cases: all-zero estimates yield model agreement 1, missing age
data yields the zero age feature, and a zero-variance or singleton CVSS
set yields severity variance 0.  (In the exact-arithmetic embedding every
value is a real number, so no NaN/∞ can be produced.) -/
theorem engine_outputs_in_range (asset : Asset) (vulns : List Vulnerability)
    (hist : Option ℕ) (gt : Option ℝ)
    (vmap : List (String × Vulnerability)) (ti : List (String × ℚ)) (a : Asset)
    (hcvss : ∀ v ∈ vulns, 0 ≤ v.cvssScore ∧ v.cvssScore ≤ 10)
    (hvmap : ∀ p ∈ vmap, 0 ≤ p.2.cvssScore ∧ p.2.cvssScore ≤ 10)
    (hti : ∀ p ∈ ti, 0 ≤ p.2 ∧ p.2 ≤ 1) :
    (0 ≤ (calculate_ultra_precise_risk asset vulns hist gt).score
      ∧ (calculate_ultra_precise_risk asset vulns hist gt).score ≤ 100)
    ∧ (0 ≤ (calculate_ultra_precise_risk asset vulns hist gt).confidence
      ∧ (calculate_ultra_precise_risk asset vulns hist gt).confidence ≤ 1)
    ∧ (0 ≤ (calculate_ultra_precise_risk asset vulns hist gt).uncertainty
      ∧ (calculate_ultra_precise_risk asset vulns hist gt).uncertainty ≤ 1)
    ∧ (0 ≤ (calculate_ultra_precise_risk asset vulns hist gt).confidenceInterval.1
      ∧ (calculate_ultra_precise_risk asset vulns hist gt).confidenceInterval.1 ≤ 100)
    ∧ (0 ≤ (calculate_ultra_precise_risk asset vulns hist gt).confidenceInterval.2
      ∧ (calculate_ultra_precise_risk asset vulns hist gt).confidenceInterval.2 ≤ 100)
    ∧ (0 ≤ (calculate_ultra_precise_risk asset vulns hist gt).modelAgreement
      ∧ (calculate_ultra_precise_risk asset vulns hist gt).modelAgreement ≤ 1)
    ∧ (meanR (ensemble_predictions (extract_features asset vulns)) = 0 →
        model_agreement (ensemble_predictions (extract_features asset vulns)) = 1)
    ∧ ((∀ v ∈ vulns, v.publishedAgeDays = none) →
        (extract_features asset vulns).vulnAgeMean = 0)
    ∧ (0 ≤ (calculate_asset_risk vmap ti a).1.totalRiskScore
      ∧ (calculate_asset_risk vmap ti a).1.totalRiskScore ≤ 100)
    ∧ (0 ≤ (calculate_asset_risk vmap ti a).1.vulnerabilityRisk
      ∧ (calculate_asset_risk vmap ti a).1.vulnerabilityRisk ≤ 100)
    ∧ (0 ≤ (calculate_asset_risk vmap ti a).1.exposureRisk
      ∧ (calculate_asset_risk vmap ti a).1.exposureRisk ≤ 100)
    ∧ (1/2 ≤ (calculate_asset_risk vmap ti a).1.criticalityMultiplier
      ∧ (calculate_asset_risk vmap ti a).1.criticalityMultiplier ≤ 2)
    ∧ (1 ≤ (calculate_asset_risk vmap ti a).1.threatIntelligenceFactor
      ∧ (calculate_asset_risk vmap ti a).1.threatIntelligenceFactor ≤ 2)
    ∧ (∀ kv ∈ (calculate_ultra_precise_risk asset vulns hist gt).contributingFactors,
        0 ≤ kv.2 ∧ kv.2 ≤ 100)
    ∧ ((∃ c, ∀ v ∈ vulns, v.cvssScore = c) →
        (extract_features asset vulns).severityVariance = 0) := by
  obtain ⟨hb1, hb2, hb3, hb4, hb5, hb6⟩ :=
    ultra_bounds_aux asset vulns hist gt (fun v hv => (hcvss v hv).1)
  obtain ⟨hvr, her, hcm, htf⟩ := asset_result_component_bounds vmap ti a hvmap hti
  refine ⟨hb1, hb2, hb3, hb4, hb5, hb6, ?_, ages_empty asset vulns,
    asset_total_bounds vmap ti a hvmap hti, hvr, her, hcm, htf,
    ultra_factors_bounds asset vulns hist gt (fun v hv => (hcvss v hv).1),
    severityVariance_const asset vulns⟩
  intro hm
  exact model_agreement_zero_mean _ (by simp [ensemble_predictions]) hm

/-- C7 witness: the range invariants instantiated at a concrete asset,
vulnerability set and threat-intelligence map. -/
theorem engine_outputs_in_range_witness :
    (0 ≤ (calculate_ultra_precise_risk wAsset [wVuln1, wVuln2] (some 1) (some 50)).score
      ∧ (calculate_ultra_precise_risk wAsset [wVuln1, wVuln2] (some 1) (some 50)).score ≤ 100)
    ∧ (0 ≤ (calculate_ultra_precise_risk wAsset [wVuln1, wVuln2] (some 1) (some 50)).confidence
      ∧ (calculate_ultra_precise_risk wAsset [wVuln1, wVuln2] (some 1) (some 50)).confidence ≤ 1)
    ∧ (0 ≤ (calculate_ultra_precise_risk wAsset [wVuln1, wVuln2] (some 1) (some 50)).uncertainty
      ∧ (calculate_ultra_precise_risk wAsset [wVuln1, wVuln2] (some 1) (some 50)).uncertainty ≤ 1)
    ∧ (0 ≤ (calculate_ultra_precise_risk wAsset [wVuln1, wVuln2] (some 1) (some 50)).confidenceInterval.1
      ∧ (calculate_ultra_precise_risk wAsset [wVuln1, wVuln2] (some 1) (some 50)).confidenceInterval.1 ≤ 100)
    ∧ (0 ≤ (calculate_ultra_precise_risk wAsset [wVuln1, wVuln2] (some 1) (some 50)).confidenceInterval.2
      ∧ (calculate_ultra_precise_risk wAsset [wVuln1, wVuln2] (some 1) (some 50)).confidenceInterval.2 ≤ 100)
    ∧ (0 ≤ (calculate_ultra_precise_risk wAsset [wVuln1, wVuln2] (some 1) (some 50)).modelAgreement
      ∧ (calculate_ultra_precise_risk wAsset [wVuln1, wVuln2] (some 1) (some 50)).modelAgreement ≤ 1)
    ∧ (meanR (ensemble_predictions (extract_features wAsset [wVuln1, wVuln2])) = 0 →
        model_agreement (ensemble_predictions (extract_features wAsset [wVuln1, wVuln2])) = 1)
    ∧ ((∀ v ∈ [wVuln1, wVuln2], v.publishedAgeDays = none) →
        (extract_features wAsset [wVuln1, wVuln2]).vulnAgeMean = 0)
    ∧ (0 ≤ (calculate_asset_risk wVmap wTi wAsset).1.totalRiskScore
      ∧ (calculate_asset_risk wVmap wTi wAsset).1.totalRiskScore ≤ 100)
    ∧ (0 ≤ (calculate_asset_risk wVmap wTi wAsset).1.vulnerabilityRisk
      ∧ (calculate_asset_risk wVmap wTi wAsset).1.vulnerabilityRisk ≤ 100)
    ∧ (0 ≤ (calculate_asset_risk wVmap wTi wAsset).1.exposureRisk
      ∧ (calculate_asset_risk wVmap wTi wAsset).1.exposureRisk ≤ 100)
    ∧ (1/2 ≤ (calculate_asset_risk wVmap wTi wAsset).1.criticalityMultiplier
      ∧ (calculate_asset_risk wVmap wTi wAsset).1.criticalityMultiplier ≤ 2)
    ∧ (1 ≤ (calculate_asset_risk wVmap wTi wAsset).1.threatIntelligenceFactor
      ∧ (calculate_asset_risk wVmap wTi wAsset).1.threatIntelligenceFactor ≤ 2)
    ∧ (∀ kv ∈ (calculate_ultra_precise_risk wAsset [wVuln1, wVuln2] (some 1) (some 50)).contributingFactors,
        0 ≤ kv.2 ∧ kv.2 ≤ 100)
    ∧ ((∃ c, ∀ v ∈ [wVuln1, wVuln2], v.cvssScore = c) →
        (extract_features wAsset [wVuln1, wVuln2]).severityVariance = 0) :=
  engine_outputs_in_range wAsset [wVuln1, wVuln2] (some 1) (some 50) wVmap wTi wAsset
    (by
      intro v hv
      simp only [List.mem_cons, List.not_mem_nil, or_false] at hv
      rcases hv with rfl | rfl <;> constructor <;> norm_num [wVuln1, wVuln2])
    (by
      intro p hp
      simp only [wVmap, List.mem_cons, List.not_mem_nil, or_false] at hp
      rcases hp with rfl | rfl <;> constructor <;> norm_num [wVuln1, wVuln2])
    (by
      intro p hp
      simp only [wTi, List.mem_cons, List.not_mem_nil, or_false] at hp
      rcases hp with rfl <;> constructor <;> norm_num)

theorem wLow_preds :
    ensemble_predictions (extract_features wAssetLow [wVulnZero]) = [0, 0, 7, 0, 13/10] := by
  norm_num [ensemble_predictions, extract_features, bayesian_predict, gradient_boosting_predict,
    neural_network_predict, markov_predict, rules_based_prediction, meanR, maxR, varR,
    critVal, patchEncoding, wAssetLow, wVulnZero, min_def, List.countP_cons]

theorem wLow_agreement_lt :
    model_agreement (ensemble_predictions (extract_features wAssetLow [wVulnZero])) < 9/10 := by
  rw [wLow_preds]
  have hmean : meanR [(0:ℝ), 0, 7, 0, 13/10] = 83/50 := by norm_num [meanR]
  have hvar : varR [(0:ℝ), 0, 7, 0, 13/10] = 4614/625 := by norm_num [varR, meanR]
  have hstd : (83:ℝ)/500 < stdR [(0:ℝ), 0, 7, 0, 13/10] := by
    rw [stdR, hvar]
    exact Real.lt_sqrt_of_sq_lt (by norm_num)
  simp only [model_agreement]
  rw [if_neg (by norm_num), if_neg (by rw [hmean]; norm_num)]
  have hcv : (1:ℝ)/10 < stdR [(0:ℝ), 0, 7, 0, 13/10] / meanR [(0:ℝ), 0, 7, 0, 13/10] := by
    rw [hmean, lt_div_iff (by norm_num : (0:ℝ) < 83/50)]
    linarith
  have hminlt : (1:ℝ)/10 < min (stdR [(0:ℝ), 0, 7, 0, 13/10] / meanR [(0:ℝ), 0, 7, 0, 13/10]) 1 :=
    lt_min hcv (by norm_num)
  linarith

/-- C6 witness: the early-return fields at a concrete low-criticality asset
with a single zero-CVSS vulnerability, where the five estimates are
[0, 0, 7, 0, 1.3] and the agreement is 0. -/
theorem ensemble_low_agreement_early_witness :
    (calculate_ultra_precise_risk wAssetLow [wVulnZero] none none).score
        = meanR (ensemble_predictions (extract_features wAssetLow [wVulnZero]))
    ∧ (calculate_ultra_precise_risk wAssetLow [wVulnZero] none none).uncertainty = 1/2
    ∧ (calculate_ultra_precise_risk wAssetLow [wVulnZero] none none).confidenceInterval = (0, 100)
    ∧ (calculate_ultra_precise_risk wAssetLow [wVulnZero] none none).precisionLevel = "low"
    ∧ (calculate_ultra_precise_risk wAssetLow [wVulnZero] none none).validationPassed = false := by
  have h := ensemble_low_agreement_early wAssetLow [wVulnZero] none none
    (by simp) wLow_agreement_lt
  exact ⟨h.1, h.2.2.1, h.2.2.2.1, h.2.2.2.2.1, h.2.2.2.2.2⟩

/-- C10 witness: the "Uncertain" label on the concrete low-agreement input,
and one of the five documented labels on an empty vulnerability list. -/
theorem ensemble_risk_level_classification_witness :
    (calculate_ultra_precise_risk wAssetLow [wVulnZero] none none).riskLevel = "Uncertain"
    ∧ (calculate_ultra_precise_risk wAssetLow ([] : List Vulnerability) none none).riskLevel
        ∈ (["Critical", "High", "Medium", "Low", "Informational"] : List String) := by
  constructor
  · exact ((ensemble_risk_level_classification wAssetLow [wVulnZero] none none).1
      ⟨by simp, wLow_agreement_lt⟩).1
  · exact (ensemble_risk_level_classification wAssetLow [] none none).2 (Or.inl rfl)
